import Mathlib

/-!
Verification development for the shuttle MapReduce job tracker.

The embedding below follows the C++ sources:
  - src/master/job_tracker.cc   (JobTracker: Start, Assign, Finish, Kill,
    Load/Replay/Dump, KeepMonitoring, CanMapDismiss, AccumulateCounters)
  - src/master/master_flags.cc  (flag defaults)
  - src/minion/minion_impl.cc   (MinionImpl::Query)

The task pools (ResourceManager / IdManager, file resource_manager.cc) are not
part of the provided sources; their operations are modelled from the
specification of the TaskPool component and carry a doc comment saying so.
External collaborators (DFS, Galaxy deployer, RPC transport) are represented
by explicit environment records holding the outcome of each call, mirroring
how job_tracker.cc consumes their results.

Machine integers: all the quantities involved in the claims stay far below
2^31 in the source (task counts, capacities, percentages), so `Nat`/`Int`
arithmetic is used without wrap-around.  C integer division on non-negative
operands is `Nat` division.
-/

namespace Shuttle

/-- Task attempt states reported by workers (proto `TaskState`).
`unknown` stands for any value outside the states `FinishMap`/`FinishReduce`
dispatch on (the `default:` branch of the switch). -/
inductive TaskState where
  | running
  | completed
  | failed
  | killed
  | canceled
  | moveOutputFailed
  | unknown
deriving DecidableEq, Repr

/-- Per-task pool status (`kResPending` / `kResAllocated` / `kResDone`). -/
inductive ResStatus where
  | pending
  | allocated
  | done
deriving DecidableEq, Repr

/-- Status codes emitted by the master core. -/
inductive Status where
  | ok
  | suspend
  | noMore
  | galaxyError
  | writeFileFail
  | openFileFail
  | noSuchJob
  | noSuchTask
deriving DecidableEq, Repr

/-- Job lifecycle states (`kPending` .. `kKilled`). -/
inductive JobState where
  | pending
  | running
  | completed
  | failed
  | killed
deriving DecidableEq, Repr

/-- Job type: map-only or full map-reduce (`kMapOnlyJob` / `kMapReduceJob`). -/
inductive JobType where
  | mapOnly
  | mapReduce
deriving DecidableEq, Repr

/-- Modelled from the spec: one task pool item (ResourceItem / IdItem of the
missing resource_manager.cc).  Fields `no` (dense id), `attempt` (current
generation), `status`, `allocated` (active handouts). -/
structure IdItem where
  no : Nat
  attempt : Nat
  status : ResStatus
  allocated : Nat
deriving DecidableEq, Repr

/-- Find the pool item with the given id (pools are kept in ascending `no`). -/
def findItem : List IdItem → Nat → Option IdItem
  | [], _ => none
  | it :: rest, no => if it.no = no then some it else findItem rest no

/-- Rewrite the pool item with the given id in place. -/
def updateItem (pool : List IdItem) (no : Nat) (f : IdItem → IdItem) : List IdItem :=
  pool.map fun it => if it.no = no then f it else it

/-- Modelled from the spec: `TaskPool.Next()` of the missing
resource_manager.cc — return the first pending item (ascending `no`), mark it
Allocated and increment its allocated count; none when no item is pending. -/
def getItem (pool : List IdItem) : Option (IdItem × List IdItem) :=
  match pool.find? (fun it => decide (it.status = ResStatus.pending)) with
  | none => none
  | some it =>
    let it' : IdItem := { it with status := ResStatus.allocated, allocated := it.allocated + 1 }
    some (it', updateItem pool it.no fun _ => it')

/-- Modelled from the spec: `TaskPool.Take(no)` of the missing
resource_manager.cc — re-emit the id if it is still Allocated, incrementing
its `attempt` (speculative duplicate / slug re-issue). -/
def getCertainItem (pool : List IdItem) (no : Nat) : Option (IdItem × List IdItem) :=
  match findItem pool no with
  | none => none
  | some it =>
    if it.status = ResStatus.allocated then
      let it' : IdItem := { it with attempt := it.attempt + 1, allocated := it.allocated + 1 }
      some (it', updateItem pool no fun _ => it')
    else none

/-- Modelled from the spec: `TaskPool.Finish(no)` of the missing
resource_manager.cc — mark Done iff not already Done; true iff this call
caused the transition; Done implies allocated count zero. -/
def finishItem (pool : List IdItem) (no : Nat) : Bool × List IdItem :=
  match findItem pool no with
  | none => (false, pool)
  | some it =>
    if it.status = ResStatus.done then (false, pool)
    else (true, updateItem pool no fun i =>
      { i with status := ResStatus.done, allocated := 0 })

/-- Modelled from the spec: `TaskPool.ReturnBack(no)` of the missing
resource_manager.cc — decrement the allocated count; Pending again when it
reaches zero; a no-op on Done items. -/
def returnBackItem (pool : List IdItem) (no : Nat) : List IdItem :=
  updateItem pool no fun it =>
    if it.status = ResStatus.done then it
    else
      let a := it.allocated - 1
      if a = 0 then { it with status := ResStatus.pending, allocated := 0 }
      else { it with allocated := a }

/-- Modelled from the spec: `TaskPool.IsAllocated(no)`. -/
def isAllocated (pool : List IdItem) (no : Nat) : Bool :=
  match findItem pool no with
  | some it => decide (it.status = ResStatus.allocated)
  | none => false

/-- Modelled from the spec: `TaskPool.IsDone(no)`. -/
def isDone (pool : List IdItem) (no : Nat) : Bool :=
  match findItem pool no with
  | some it => decide (it.status = ResStatus.done)
  | none => false

/-- Modelled from the spec: `TaskPool.Done()` — number of Done items. -/
def doneCount : List IdItem → Nat
  | [] => 0
  | it :: rest => (if it.status = ResStatus.done then 1 else 0) + doneCount rest

/-- Modelled from the spec: `TaskPool.SumOfItems()`. -/
def sumOfItems (pool : List IdItem) : Nat := pool.length

/-- Modelled from the spec: the freshly partitioned id space `0..n-1`
(every item Pending, attempt 0). -/
def initPool (n : Nat) : List IdItem :=
  (List.range n).map fun i => ⟨i, 0, ResStatus.pending, 0⟩

/-- One ledger record (`AllocateItem` in job_tracker.cc). -/
structure AllocEntry where
  endpoint : String
  resourceNo : Nat
  attempt : Nat
  isMap : Bool
  state : TaskState
  allocTime : Int
  period : Int
deriving DecidableEq, Repr

/-- Immutable configuration: the gflags consumed by job_tracker.cc together
with the JobDescriptor fields it reads (retries, budgets, capacities,
duplicate permissions, job type). -/
structure Cfg where
  jobType : JobType
  mapAllowDuplicates : Bool
  reduceAllowDuplicates : Bool
  mapCapacity : Int
  reduceCapacity : Int
  mapRetry : Nat
  reduceRetry : Nat
  ignoreMapFailuresBudget : Nat
  ignoreReduceFailuresBudget : Nat
  replicaBegin : Int
  replicaBeginPercent : Nat
  replicaNum : Nat
  leftPercent : Nat
  parallelAttempts : Int
  maxCountersPerJob : Nat
deriving DecidableEq, Repr

/-- The mutable JobTracker state.  The monitor time heap and timers are not
reified (the monitor pass is modelled per popped entry, see
`monitorRequeueMap`); `hasRpcClient`/`hasMapGru`/`hasReduceGru` model the
`rpc_client_`, `map_` and `reduce_` pointers being non-null. -/
structure Tracker where
  jobId : String
  jobState : JobState
  mapPool : Option (List IdItem)
  reducePool : Option (List IdItem)
  mapTotal : Nat
  reduceTotal : Nat
  mapEndGameBegin : Int
  reduceBegin : Int
  reduceEndGameBegin : Int
  allocTable : List AllocEntry
  mapSlug : List Nat
  reduceSlug : List Nat
  mapDismissed : List String
  reduceDismissed : List String
  mapKilled : Nat
  mapFailed : Nat
  reduceKilled : Nat
  reduceFailed : Nat
  failedCount : List Nat
  failedNodes : List (Nat × List String)
  ignoreFailureMappers : List Nat
  ignoredMapFailures : Nat
  ignoreFailureReducers : List Nat
  ignoredReduceFailures : Nat
  counters : List (String × Int)
  mapMonitoring : Bool
  reduceMonitoring : Bool
  hasRpcClient : Bool
  hasMapGru : Bool
  hasReduceGru : Bool
deriving DecidableEq, Repr

/-- The set of nodes that already failed task `no` (`failed_nodes_[no]`);
keys are unique, so first match wins. -/
def nodesAt : List (Nat × List String) → Nat → List String
  | [], _ => []
  | p :: rest, no => if p.1 = no then p.2 else nodesAt rest no

/-- Record a failing node for task `no` (`failed_nodes_[no].insert(node)`):
extend the entry for `no`, or append a fresh one. -/
def insertNode : List (Nat × List String) → Nat → String → List (Nat × List String)
  | [], no, node => [(no, [node])]
  | p :: rest, no, node =>
    if p.1 = no then (p.1, p.2 ++ [node]) :: rest
    else p :: insertNode rest no node

/-- Read `failed_count_[no]` (zero outside the vector). -/
def countAt (l : List Nat) (no : Nat) : Nat := (l.get? no).getD 0

/-- Increment `failed_count_[no]` in place. -/
def bumpAt (l : List Nat) (no : Nat) : List Nat := l.set no (countAt l no + 1)

/-- Insert into a set kept as a duplicate-free list (`std::set::insert`). -/
def setInsert (l : List Nat) (a : Nat) : List Nat :=
  if a ∈ l then l else l ++ [a]

/-- Insert an endpoint into a dismissed set (`std::set<std::string>`). -/
def setInsertStr (l : List String) (a : String) : List String :=
  if a ∈ l then l else l ++ [a]

/-- Look up a user counter by name (keys are unique, first match wins). -/
def lookupCounter : List (String × Int) → String → Option Int
  | [], _ => none
  | p :: rest, k => if p.1 = k then some p.2 else lookupCounter rest k

/-- Add `v` to the counter `k`: `counters_[key] += value` on a `std::map`
(a missing key starts at the default 0). -/
def addCounter : List (String × Int) → String → Int → List (String × Int)
  | [], k, v => [(k, v)]
  | p :: rest, k, v =>
    if p.1 = k then (p.1, p.2 + v) :: rest
    else p :: addCounter rest k v

/-- Source `JobTracker::AccumulateCounters` (job_tracker.cc:1199-1212): when the
counter map already holds more than `maxCountersPerJob` names, return false
WITHOUT touching the map; otherwise fold the whole report in and return
true. -/
def accumulateCounters (maxC : Nat) (cs : List (String × Int))
    (report : List (String × Int)) : Bool × List (String × Int) :=
  if cs.length > maxC then (false, cs)
  else (true, report.foldl (fun acc p => addCounter acc p.1 p.2) cs)

/-- Characters before the first colon, or none when there is no colon. -/
def hostChars : List Char → Option (List Char)
  | [] => none
  | c :: rest =>
    if c = ':' then some []
    else (hostChars rest).map fun cs => c :: cs

/-- The host part of a worker endpoint: `endpoint.substr(0, pos of ':')`;
the source leaves the node name empty when there is no colon. -/
def nodeOf (endpoint : String) : String :=
  match hostChars endpoint.toList with
  | some cs => String.mk cs
  | none => ""

/-- Entry key used by `map_index_` / `reduce_index_`. -/
def allocKey (isMap : Bool) (no attempt : Nat) (e : AllocEntry) : Bool :=
  decide (e.isMap = isMap ∧ e.resourceNo = no ∧ e.attempt = attempt)

/-- Index lookup `map_index_[no][attempt]` / `reduce_index_[...]`: the index
always points at the most recently inserted entry for the key. -/
def allocFind (t : Tracker) (isMap : Bool) (no attempt : Nat) : Option AllocEntry :=
  t.allocTable.reverse.find? (allocKey isMap no attempt)

/-- Rewrite the first list entry satisfying `p`. -/
def updateFirstWhere (p : AllocEntry → Bool) (f : AllocEntry → AllocEntry) :
    List AllocEntry → List AllocEntry
  | [] => []
  | x :: xs => if p x then f x :: xs else x :: updateFirstWhere p f xs

/-- Rewrite the most recently inserted entry satisfying `p` (what mutating
through the index pointer does). -/
def updateLastWhere (p : AllocEntry → Bool) (f : AllocEntry → AllocEntry)
    (l : List AllocEntry) : List AllocEntry :=
  (updateFirstWhere p f l.reverse).reverse

/-- Commit a terminal state and period into the ledger entry for
`(no, attempt)` (job_tracker.cc:709-711 / 856-858). -/
def commitAlloc (t : Tracker) (isMap : Bool) (no attempt : Nat) (st : TaskState)
    (now : Int) : Tracker :=
  let table := updateLastWhere (allocKey isMap no attempt)
    (fun e => { e with state := st, period := now - e.allocTime }) t.allocTable
  { t with allocTable := table }

/-- True when no later table entry shares this entry's `(isMap, no, attempt)`
key, i.e. the entry is the one the lookup index points at. -/
def isLastWithKey (l : List AllocEntry) (i : Nat) (e : AllocEntry) : Bool :=
  (l.drop (i + 1)).all fun e2 => !(allocKey e.isMap e.resourceNo e.attempt e2)

/-- Source `JobTracker::CancelOtherAttempts` (job_tracker.cc:480-515): if the RPC
client is gone do nothing; otherwise every indexed attempt of `no` other than
the winner is marked Canceled (and a best-effort CancelTask RPC is fired,
which has no tracker-visible effect). -/
def cancelOtherAttempts (t : Tracker) (isMap : Bool) (no attempt : Nat)
    (now : Int) : Tracker :=
  if t.hasRpcClient then
    let table := t.allocTable.enum.map fun pr =>
      if pr.2.isMap = isMap ∧ pr.2.resourceNo = no ∧ pr.2.attempt ≠ attempt ∧
          isLastWithKey t.allocTable pr.1 pr.2 = true
      then { pr.2 with state := TaskState.canceled, period := now - pr.2.allocTime }
      else pr.2
    { t with allocTable := table }
  else t

/-- Outcomes of the external calls a Finish handler may perform: whether the
synthetic empty sort file failed (SortFileWriter created OK but Close
returned an error), whether the reduce-phase Gru failed to start, and the
wall clock used for periods. -/
structure FinishEnv where
  fakeSortFail : Bool
  reduceStartFail : Bool
  now : Int
deriving DecidableEq, Repr

/-- Fake completion of ignored mappers (job_tracker.cc:560-589): a Failed
report for a task in `ignore_failure_mappers_` becomes Completed; for
map-reduce jobs an empty sort file is written and a failed write turns the
state back to Failed. -/
def finishMapState2 (cfg : Cfg) (env : FinishEnv) (t : Tracker) (curNo : Nat)
    (state1 : TaskState) : TaskState :=
  if state1 = TaskState.failed ∧ curNo ∈ t.ignoreFailureMappers then
    if cfg.jobType = JobType.mapOnly then TaskState.completed
    else if env.fakeSortFail then TaskState.failed else TaskState.completed
  else state1

/-- Map phase end handling inside the Completed branch
(job_tracker.cc:616-664): map-only jobs retract as Completed; map-reduce
jobs reset the failure bookkeeping for the reduce phase, purge the monitor
heap (not reified) and release the map Gru.  Returns the new tracker and the
`finished` flag. -/
def finishMapPhaseEnd (cfg : Cfg) (t1 : Tracker) (pool1 : List IdItem)
    (completedCnt : Nat) : Tracker × Bool :=
  if completedCnt = sumOfItems pool1 then
    if cfg.jobType = JobType.mapOnly then
      ({ t1 with jobState := JobState.completed }, true)
    else
      let r := match t1.reducePool with
               | some rp => sumOfItems rp
               | none => 0
      ({ t1 with failedCount := List.replicate r 0, failedNodes := [],
                 hasMapGru := false }, false)
  else (t1, false)

/-- The Completed branch of `FinishMap` (job_tracker.cc:591-665): pool
`FinishItem` (a false return converts the report to Canceled), counter
accumulation, reduce pull-up at `reduce_begin_` (a Gru failure retracts the
job as Failed and skips the phase-end check), then the phase-end check.
Returns the committed task state, the tracker, and the finished flag. -/
def finishMapCompleted (cfg : Cfg) (env : FinishEnv) (t : Tracker)
    (pool : List IdItem) (curNo : Nat) (report : List (String × Int)) :
    TaskState × Tracker × Bool :=
  match finishItem pool curNo with
  | (false, _) => (TaskState.canceled, t, false)
  | (true, pool1) =>
    let t1 := { t with mapPool := some pool1,
                       counters := (accumulateCounters cfg.maxCountersPerJob t.counters report).2 }
    let completedCnt := doneCount pool1
    if (completedCnt : Int) = t.reduceBegin ∧ cfg.jobType ≠ JobType.mapOnly then
      let t2 := { t1 with hasReduceGru := true }
      if env.reduceStartFail then
        (TaskState.completed, { t2 with jobState := JobState.failed }, true)
      else
        let pe := finishMapPhaseEnd cfg t2 pool1 completedCnt
        (TaskState.completed, pe.1, pe.2)
    else
      let pe := finishMapPhaseEnd cfg t1 pool1 completedCnt
      (TaskState.completed, pe.1, pe.2)

/-- The Failed branch of `FinishMap` (job_tracker.cc:666-693): return the
item to the pool, count the failure only for a new node, always bump
`map_failed_`, and at the retry bound either consume an ignore-failure slot
or retract the job as Failed. -/
def finishMapFailed (cfg : Cfg) (t : Tracker) (pool : List IdItem) (curNo : Nat)
    (curNode : String) : Tracker × Bool :=
  let pool1 := returnBackItem pool curNo
  let t1 := { t with mapPool := some pool1 }
  let t2 := if curNode ∈ nodesAt t1.failedNodes curNo then t1
            else { t1 with failedCount := bumpAt t1.failedCount curNo,
                           failedNodes := insertNode t1.failedNodes curNo curNode }
  let t3 := { t2 with mapFailed := t2.mapFailed + 1 }
  if countAt t3.failedCount curNo ≥ cfg.mapRetry then
    if t3.ignoredMapFailures < cfg.ignoreMapFailuresBudget then
      ({ t3 with ignoreFailureMappers := setInsert t3.ignoreFailureMappers curNo,
                 ignoredMapFailures := t3.ignoredMapFailures + 1 }, false)
    else ({ t3 with jobState := JobState.failed }, true)
  else (t3, false)

/-- The switch of `FinishMap` (job_tracker.cc:590-706), dispatching on the
(possibly re-mapped) task state; none is the `default:` case that answers
NoMore and leaves the tracker untouched.  Returns the committed state, the
tracker and the finished flag. -/
def finishMapBranch (cfg : Cfg) (env : FinishEnv) (t : Tracker) (pool : List IdItem)
    (curNo : Nat) (curNode : String) (report : List (String × Int)) :
    TaskState → Option (TaskState × Tracker × Bool)
  | TaskState.completed => some (finishMapCompleted cfg env t pool curNo report)
  | TaskState.failed =>
    let fb := finishMapFailed cfg t pool curNo curNode
    some (TaskState.failed, fb.1, fb.2)
  | TaskState.killed =>
    some (TaskState.killed,
      { t with mapPool := some (returnBackItem pool curNo),
               mapKilled := t.mapKilled + 1 }, false)
  | TaskState.canceled =>
    some (TaskState.canceled,
      (if isDone pool curNo then t
       else { t with mapPool := some (returnBackItem pool curNo) }), false)
  | _ => none

/-- The tail of `FinishMap` (job_tracker.cc:708-730): commit the terminal
state and period into the ledger, requeue Killed/Failed tasks into the slug
when duplicates are allowed, and for a winning Completed attempt cancel the
other attempts (dropping the RPC client when the job just finished). -/
def finishMapCommit (cfg : Cfg) (env : FinishEnv) (no attempt curNo : Nat)
    (state3 : TaskState) (t1 : Tracker) (finished : Bool) : Status × Tracker :=
  let t2 := commitAlloc t1 true no attempt state3 env.now
  let t3 := if cfg.mapAllowDuplicates ∧
               (state3 = TaskState.killed ∨ state3 = TaskState.failed)
            then { t2 with mapSlug := t2.mapSlug ++ [curNo] } else t2
  if state3 ≠ TaskState.completed then (Status.ok, t3)
  else if ¬cfg.mapAllowDuplicates then (Status.ok, t3)
  else
    let t4 := cancelOtherAttempts t3 true no attempt env.now
    let t5 := if finished then { t4 with hasRpcClient := false } else t4
    (Status.ok, t5)

/-- Source `JobTracker::FinishMap` (job_tracker.cc:517-731). -/
def finishMap (cfg : Cfg) (env : FinishEnv) (t : Tracker) (no attempt : Nat)
    (state0 : TaskState) (report : List (String × Int)) : Status × Tracker :=
  match t.mapPool with
  | none => (Status.noMore, t)
  | some pool =>
  match allocFind t true no attempt with
  | none => (Status.noMore, t)
  | some cur =>
  if cur.state ≠ TaskState.running then (Status.noMore, t) else
  let state1 := if state0 = TaskState.moveOutputFailed then
      (if isDone pool cur.resourceNo then TaskState.canceled else TaskState.failed)
    else state0
  let state2 := finishMapState2 cfg env t cur.resourceNo state1
  match finishMapBranch cfg env t pool cur.resourceNo (nodeOf cur.endpoint) report state2 with
  | none => (Status.noMore, t)
  | some (state3, t1, finished) =>
    finishMapCommit cfg env no attempt cur.resourceNo state3 t1 finished

/-- The Completed branch of `FinishReduce` (job_tracker.cc:788-812). -/
def finishReduceCompleted (cfg : Cfg) (t : Tracker) (pool : List IdItem)
    (curNo : Nat) (report : List (String × Int)) : TaskState × Tracker × Bool :=
  match finishItem pool curNo with
  | (false, _) => (TaskState.canceled, t, false)
  | (true, pool1) =>
    let t1 := { t with reducePool := some pool1,
                       counters := (accumulateCounters cfg.maxCountersPerJob t.counters report).2 }
    let completedCnt := doneCount pool1
    if completedCnt = sumOfItems pool1 then
      (TaskState.completed, { t1 with jobState := JobState.completed }, true)
    else (TaskState.completed, t1, false)

/-- The Failed branch of `FinishReduce` (job_tracker.cc:813-840). -/
def finishReduceFailed (cfg : Cfg) (t : Tracker) (pool : List IdItem) (curNo : Nat)
    (curNode : String) : Tracker × Bool :=
  let pool1 := returnBackItem pool curNo
  let t1 := { t with reducePool := some pool1 }
  let t2 := if curNode ∈ nodesAt t1.failedNodes curNo then t1
            else { t1 with failedCount := bumpAt t1.failedCount curNo,
                           failedNodes := insertNode t1.failedNodes curNo curNode }
  let t3 := { t2 with reduceFailed := t2.reduceFailed + 1 }
  if countAt t3.failedCount curNo ≥ cfg.reduceRetry then
    if t3.ignoredReduceFailures < cfg.ignoreReduceFailuresBudget then
      ({ t3 with ignoreFailureReducers := setInsert t3.ignoreFailureReducers curNo,
                 ignoredReduceFailures := t3.ignoredReduceFailures + 1 }, false)
    else ({ t3 with jobState := JobState.failed }, true)
  else (t3, false)

/-- The switch of `FinishReduce` (job_tracker.cc:787-853). -/
def finishReduceBranch (cfg : Cfg) (t : Tracker) (pool : List IdItem)
    (curNo : Nat) (curNode : String) (report : List (String × Int)) :
    TaskState → Option (TaskState × Tracker × Bool)
  | TaskState.completed => some (finishReduceCompleted cfg t pool curNo report)
  | TaskState.failed =>
    let fb := finishReduceFailed cfg t pool curNo curNode
    some (TaskState.failed, fb.1, fb.2)
  | TaskState.killed =>
    some (TaskState.killed,
      { t with reducePool := some (returnBackItem pool curNo),
               reduceKilled := t.reduceKilled + 1 }, false)
  | TaskState.canceled =>
    some (TaskState.canceled,
      (if isDone pool curNo then t
       else { t with reducePool := some (returnBackItem pool curNo) }), false)
  | _ => none

/-- The tail of `FinishReduce` (job_tracker.cc:855-876). -/
def finishReduceCommit (cfg : Cfg) (env : FinishEnv) (no attempt curNo : Nat)
    (state3 : TaskState) (t1 : Tracker) (finished : Bool) : Status × Tracker :=
  let t2 := commitAlloc t1 false no attempt state3 env.now
  let t3 := if cfg.reduceAllowDuplicates ∧
               (state3 = TaskState.killed ∨ state3 = TaskState.failed)
            then { t2 with reduceSlug := t2.reduceSlug ++ [curNo] } else t2
  if state3 ≠ TaskState.completed then (Status.ok, t3)
  else if ¬cfg.reduceAllowDuplicates then (Status.ok, t3)
  else
    let t4 := cancelOtherAttempts t3 false no attempt env.now
    let t5 := if finished then { t4 with hasRpcClient := false } else t4
    (Status.ok, t5)

/-- Source `JobTracker::FinishReduce` (job_tracker.cc:733-877).  Before anything
else: while the map pool exists and its Done count is below `map_total`, any
report other than Killed is answered with Suspend and nothing changes. -/
def finishReduce (cfg : Cfg) (env : FinishEnv) (t : Tracker) (no attempt : Nat)
    (state0 : TaskState) (report : List (String × Int)) : Status × Tracker :=
  if (match t.mapPool with
      | some mp => decide (doneCount mp < t.mapTotal)
      | none => false) = true ∧ state0 ≠ TaskState.killed
  then (Status.suspend, t)
  else
  match t.reducePool with
  | none => (Status.noMore, t)
  | some pool =>
  match allocFind t false no attempt with
  | none => (Status.noMore, t)
  | some cur =>
  if cur.state ≠ TaskState.running then (Status.noMore, t) else
  let state1 := if state0 = TaskState.moveOutputFailed then
      (if isDone pool cur.resourceNo then TaskState.canceled else TaskState.failed)
    else state0
  let state2 := if state1 = TaskState.failed ∧ cur.resourceNo ∈ t.ignoreFailureReducers
                then TaskState.completed else state1
  match finishReduceBranch cfg t pool cur.resourceNo (nodeOf cur.endpoint) report state2 with
  | none => (Status.noMore, t)
  | some (state3, t1, finished) =>
    finishReduceCommit cfg env no attempt cur.resourceNo state3 t1 finished

/-- Ceiling division on naturals, `(a + b - 1) / b`.  In the source the
dismissal budget computes `ceil(x * left_percent / 100.0)` in double
precision; for the small non-negative integers involved the quotient is
never within a rounding error of an integer it does not equal, so the float
ceiling coincides with this integer ceiling. -/
def ceilDivNat (a b : Nat) : Nat := (a + b - 1) / b

/-- The dismissal budget `capacity - ceil(max(notDone,5) * leftPercent /
100.0)` of CanMapDismiss/CanReduceDismiss (job_tracker.cc:308-309, 332-333). -/
def dismissBudget (capacity : Int) (notDone : Int) (leftPercent : Nat) : Int :=
  capacity - (ceilDivNat ((max notDone 5).toNat * leftPercent) 100 : Nat)

/-- Source `JobTracker::CanMapDismiss` (job_tracker.cc:304-326): with surplus
capacity (`capacity > notDone`), park the worker (Suspend) once the
dismissed set has reached the budget, otherwise record the endpoint and send
the worker away (NoMore); without surplus capacity always Suspend. -/
def canMapDismiss (cfg : Cfg) (mapTotal doneCnt : Nat) (dismissed : List String)
    (endpoint : String) : Status × List String :=
  let notDone : Int := (mapTotal : Int) - (doneCnt : Int)
  let budget := dismissBudget cfg.mapCapacity notDone cfg.leftPercent
  if cfg.mapCapacity > notDone then
    if (dismissed.length : Int) ≥ budget then (Status.suspend, dismissed)
    else (Status.noMore, setInsertStr dismissed endpoint)
  else (Status.suspend, dismissed)

/-- Source `JobTracker::CanReduceDismiss` (job_tracker.cc:328-350), symmetric. -/
def canReduceDismiss (cfg : Cfg) (reduceTotal doneCnt : Nat) (dismissed : List String)
    (endpoint : String) : Status × List String :=
  let notDone : Int := (reduceTotal : Int) - (doneCnt : Int)
  let budget := dismissBudget cfg.reduceCapacity notDone cfg.leftPercent
  if cfg.reduceCapacity > notDone then
    if (dismissed.length : Int) ≥ budget then (Status.suspend, dismissed)
    else (Status.noMore, setInsertStr dismissed endpoint)
  else (Status.suspend, dismissed)

/-- Drop slug heads that are no longer Allocated (the drain loop of
AssignMap/AssignReduce, job_tracker.cc:359-363 / 424-427). -/
def dropNonAllocated (pool : List IdItem) : List Nat → List Nat
  | [] => []
  | s :: rest => if isAllocated pool s then s :: rest else dropNonAllocated pool rest

/-- Tail of `AssignMap` once an item is in hand (job_tracker.cc:389-415):
start the end-game monitor if needed, append the Running ledger entry and
index it. -/
def assignMapFinish (t : Tracker) (cur : IdItem) (endpoint : String) (now : Int) :
    Option IdItem × Status × Tracker :=
  let t1 := if (cur.no : Int) ≥ t.mapEndGameBegin ∧ ¬t.mapMonitoring
            then { t with mapMonitoring := true } else t
  let alloc : AllocEntry :=
    ⟨endpoint, cur.no, cur.attempt, true, TaskState.running, now, -1⟩
  (some cur, Status.ok, { t1 with allocTable := t1.allocTable ++ [alloc] })

/-- Source `JobTracker::AssignMap` (job_tracker.cc:352-415). -/
def assignMap (cfg : Cfg) (t0 : Tracker) (endpoint : String) (now : Int) :
    Option IdItem × Status × Tracker :=
  let t := if t0.jobState = JobState.pending
           then { t0 with jobState := JobState.running } else t0
  match t.mapPool with
  | none => (none, Status.noMore, t)
  | some pool =>
  match getItem pool with
  | some (cur, pool1) =>
    let t1 := { t with mapPool := some pool1 }
    let t2 := if cfg.mapAllowDuplicates ∧ (cur.no : Int) ≥ t.mapEndGameBegin then
        { t1 with mapSlug := t1.mapSlug ++ List.replicate cfg.replicaNum cur.no }
      else t1
    assignMapFinish t2 cur endpoint now
  | none =>
    match dropNonAllocated pool t.mapSlug with
    | [] =>
      let d := canMapDismiss cfg t.mapTotal (doneCount pool) t.mapDismissed endpoint
      (none, d.1, { t with mapSlug := [], mapDismissed := d.2 })
    | s :: rest =>
      match getCertainItem pool s with
      | none =>
        let d := canMapDismiss cfg t.mapTotal (doneCount pool) t.mapDismissed endpoint
        (none, d.1, { t with mapSlug := rest, mapDismissed := d.2 })
      | some (cur, pool1) =>
        assignMapFinish { t with mapPool := some pool1, mapSlug := rest } cur endpoint now

/-- Tail of `AssignReduce` (job_tracker.cc:452-477). -/
def assignReduceFinish (t : Tracker) (cur : IdItem) (endpoint : String) (now : Int) :
    Option IdItem × Status × Tracker :=
  let t1 := if (cur.no : Int) ≥ t.reduceEndGameBegin ∧ ¬t.reduceMonitoring
            then { t with reduceMonitoring := true } else t
  let alloc : AllocEntry :=
    ⟨endpoint, cur.no, cur.attempt, false, TaskState.running, now, -1⟩
  (some cur, Status.ok, { t1 with allocTable := t1.allocTable ++ [alloc] })

/-- Source `JobTracker::AssignReduce` (job_tracker.cc:417-478). -/
def assignReduce (cfg : Cfg) (t0 : Tracker) (endpoint : String) (now : Int) :
    Option IdItem × Status × Tracker :=
  let t := if t0.jobState = JobState.pending
           then { t0 with jobState := JobState.running } else t0
  match t.reducePool with
  | none => (none, Status.noMore, t)
  | some pool =>
  match getItem pool with
  | some (cur, pool1) =>
    let t1 := { t with reducePool := some pool1 }
    let t2 := if cfg.reduceAllowDuplicates ∧ (cur.no : Int) ≥ t.reduceEndGameBegin then
        { t1 with reduceSlug := t1.reduceSlug ++ List.replicate cfg.replicaNum cur.no }
      else t1
    assignReduceFinish t2 cur endpoint now
  | none =>
    match dropNonAllocated pool t.reduceSlug with
    | [] =>
      let d := canReduceDismiss cfg t.reduceTotal (doneCount pool) t.reduceDismissed endpoint
      (none, d.1, { t with reduceSlug := [], reduceDismissed := d.2 })
    | s :: rest =>
      match getCertainItem pool s with
      | none =>
        let d := canReduceDismiss cfg t.reduceTotal (doneCount pool) t.reduceDismissed endpoint
        (none, d.1, { t with reduceSlug := rest, reduceDismissed := d.2 })
      | some (cur, pool1) =>
        assignReduceFinish { t with reducePool := some pool1, reduceSlug := rest } cur endpoint now

/-- Count ledger entries of one phase in one state. -/
def countEntries (isMap : Bool) (st : TaskState) : List AllocEntry → Nat
  | [] => 0
  | e :: rest =>
    (if e.isMap = isMap ∧ e.state = st then 1 else 0) + countEntries isMap st rest

/-- Source `JobTracker::Kill` (job_tracker.cc:267-302): release the Grus and the
monitor, set the end state, turn every Running ledger entry into Killed
(bumping the killed counters), release the RPC client.  The task pools are
NOT touched. -/
def killTracker (t : Tracker) (endState : JobState) (now : Int) : Tracker :=
  let table := t.allocTable.map fun e =>
    if e.state = TaskState.running
    then { e with state := TaskState.killed, period := now - e.allocTime } else e
  { t with jobState := endState,
           hasMapGru := false, hasReduceGru := false, hasRpcClient := false,
           mapKilled := t.mapKilled + countEntries true TaskState.running t.allocTable,
           reduceKilled := t.reduceKilled + countEntries false TaskState.running t.allocTable,
           allocTable := table }

/-- Result of `BuildEndGameCounters`. -/
structure EndGame where
  mapEndGameBegin : Int
  reduceBegin : Int
  reduceEndGameBegin : Int
deriving DecidableEq, Repr

/-- Source `JobTracker::BuildEndGameCounters` (job_tracker.cc:180-199), transcribed
with its sequential compare-and-assign structure; `reduceSum` is none when
`reduce_manager_` is NULL, in which case the reduce thresholds keep their
zero-initialised values. -/
def buildEndGameCounters (replicaBegin : Int) (pct : Nat) (sumOfMap : Nat)
    (reduceSum : Option Nat) : EndGame :=
  let mep0 : Int := (sumOfMap : Int) - replicaBegin
  let temp : Int := (sumOfMap : Int) - ((sumOfMap * pct / 100 : Nat) : Int)
  let mep := if mep0 > temp then temp else mep0
  match reduceSum with
  | none => ⟨mep, 0, 0⟩
  | some r =>
    let rb : Int := (sumOfMap : Int) - ((sumOfMap * pct / 100 : Nat) : Int)
    let rep0 : Int := (r : Int) - replicaBegin
    let temp2 : Int := ((r * pct / 100 : Nat) : Int)
    ⟨mep, rb, if rep0 < temp2 then temp2 else rep0⟩

/-- Outcomes of the external calls `Start` performs: the DFS `Exist` check on
the output path, the number of map items the input partitioning produced,
and whether the map-phase Gru failed to start. -/
structure StartEnv where
  outputExists : Bool
  partitionCount : Nat
  gruStartFail : Bool
deriving DecidableEq, Repr

/-- A freshly constructed tracker (the constructor, job_tracker.cc:40-86):
everything zeroed, state Pending, no pools yet; `reduceTotal` comes from the
submitted descriptor. -/
def initTracker (jobid : String) (reduceTotal : Nat) : Tracker :=
  { jobId := jobid, jobState := JobState.pending,
    mapPool := none, reducePool := none,
    mapTotal := 0, reduceTotal := reduceTotal,
    mapEndGameBegin := 0, reduceBegin := 0, reduceEndGameBegin := 0,
    allocTable := [], mapSlug := [], reduceSlug := [],
    mapDismissed := [], reduceDismissed := [],
    mapKilled := 0, mapFailed := 0, reduceKilled := 0, reduceFailed := 0,
    failedCount := [], failedNodes := [],
    ignoreFailureMappers := [], ignoredMapFailures := 0,
    ignoreFailureReducers := [], ignoredReduceFailures := 0,
    counters := [], mapMonitoring := false, reduceMonitoring := false,
    hasRpcClient := false, hasMapGru := false, hasReduceGru := false }

/-- Source `JobTracker::BuildResourceManagers` (job_tracker.cc:136-178): build the
map pool from the partitioning; fewer than one map item sets `reduce_total`
to 0, fails the job and reports OpenFileFail; otherwise the reduce pool is
created for map-reduce jobs and `failed_count_` sized to the map total. -/
def buildResourceManagers (env : StartEnv) (cfg : Cfg) (t : Tracker) :
    Status × Tracker :=
  let pool := initPool env.partitionCount
  let t1 := { t with mapPool := some pool, mapTotal := env.partitionCount }
  if env.partitionCount < 1 then
    (Status.openFileFail, { t1 with reduceTotal := 0, jobState := JobState.failed })
  else
    let t2 := if cfg.jobType = JobType.mapReduce
              then { t1 with reducePool := some (initPool t1.reduceTotal) } else t1
    (Status.ok, { t2 with failedCount := List.replicate env.partitionCount 0 })

/-- Source `JobTracker::Start` (job_tracker.cc:201-226): an existing output path
zeroes both totals, fails the job and returns WriteFileFail; a non-Ok
`BuildResourceManagers` is answered with NoMore; otherwise the end-game
thresholds are computed and the map Gru started (GalaxyError on failure). -/
def startTracker (env : StartEnv) (cfg : Cfg) (t : Tracker) : Status × Tracker :=
  if env.outputExists then
    (Status.writeFileFail,
     { t with mapTotal := 0, reduceTotal := 0, jobState := JobState.failed })
  else
    match buildResourceManagers env cfg t with
    | (Status.ok, t1) =>
      let eg := buildEndGameCounters cfg.replicaBegin cfg.replicaBeginPercent t1.mapTotal
        (if cfg.jobType = JobType.mapReduce then some t1.reduceTotal else none)
      let t2 := { t1 with mapEndGameBegin := eg.mapEndGameBegin,
                          reduceBegin := eg.reduceBegin,
                          reduceEndGameBegin := eg.reduceEndGameBegin,
                          hasRpcClient := true, hasMapGru := true }
      if env.gruStartFail then (Status.galaxyError, t2) else (Status.ok, t2)
    | (_, t1) => (Status.noMore, t1)

/-- Zeroed id table the replay starts from (job_tracker.cc:924-929). -/
def replayInit (n : Nat) : List IdItem :=
  (List.range n).map fun i => ⟨i, 0, ResStatus.pending, 0⟩

/-- One history record applied to the replayed table
(job_tracker.cc:930-951): out-of-range or other-phase records are skipped;
the record's attempt is always written; Running marks Allocated unless the
task is already Done; Completed marks Done and zeroes the allocated count;
other states only update the attempt. -/
def replayStep (isMap : Bool) (n : Nat) (table : List IdItem) (e : AllocEntry) :
    List IdItem :=
  if e.resourceNo ≥ n ∨ e.isMap ≠ isMap then table
  else updateItem table e.resourceNo fun cur0 =>
    let cur := { cur0 with attempt := e.attempt }
    match e.state with
    | TaskState.running =>
      if cur.status ≠ ResStatus.done
      then { cur with status := ResStatus.allocated, allocated := cur.allocated + 1 }
      else cur
    | TaskState.completed => { cur with status := ResStatus.done, allocated := 0 }
    | _ => cur

/-- Source `JobTracker::Replay` (job_tracker.cc:923-952). -/
def replay (history : List AllocEntry) (n : Nat) (isMap : Bool) : List IdItem :=
  history.foldl (replayStep isMap n) (replayInit n)

/-- Source `JobTracker::HistoryForDump` (job_tracker.cc:1037-1045): a copy of the
allocation table. -/
def dumpHistory (t : Tracker) : List AllocEntry := t.allocTable

/-- Source `JobTracker::InputDataForDump` (job_tracker.cc:1047-1049): the map pool
snapshot (empty when there is no map manager). -/
def dumpResource (t : Tracker) : List IdItem :=
  match t.mapPool with
  | some p => p
  | none => []

/-- Source `JobTracker::Load` (job_tracker.cc:954-1035) on a freshly constructed
tracker.  `mapTotal`/`reduceTotal` are the descriptor totals the master
restored before calling Load.  The id-state of the map pool is rebuilt from
`Replay` of the history — of the dumped resource table only the input-split
fields (not modelled here) and the size check survive
(job_tracker.cc:980-984).  Killed/failed counters are recounted from the
history; user counters, slugs, failure bookkeeping and ignore sets start
empty.  Returns none when the resource dump size does not match. -/
def loadTracker (mapTotal reduceTotal : Nat) (jobid : String) (state : JobState)
    (data : List AllocEntry) (resource : List IdItem) : Option Tracker :=
  if mapTotal ≠ 0 ∧ resource.length ≠ mapTotal then none
  else
    let mapPool := if mapTotal ≠ 0 then some (replay data mapTotal true) else none
    let mapPhase := ¬(mapTotal ≠ 0 ∧ doneCount (replay data mapTotal true) = mapTotal)
    some
      { jobId := jobid, jobState := state,
        mapPool := mapPool,
        reducePool := if reduceTotal ≠ 0 then some (replay data reduceTotal false) else none,
        mapTotal := mapTotal, reduceTotal := reduceTotal,
        mapEndGameBegin := 0, reduceBegin := 0, reduceEndGameBegin := 0,
        allocTable := data, mapSlug := [], reduceSlug := [],
        mapDismissed := [], reduceDismissed := [],
        mapKilled := countEntries true TaskState.killed data,
        mapFailed := countEntries true TaskState.failed data,
        reduceKilled := countEntries false TaskState.killed data,
        reduceFailed := countEntries false TaskState.failed data,
        failedCount := if mapTotal ≠ 0 ∧ doneCount (replay data mapTotal true) = mapTotal
                       then List.replicate reduceTotal 0 else List.replicate mapTotal 0,
        failedNodes := [],
        ignoreFailureMappers := [], ignoredMapFailures := 0,
        ignoreFailureReducers := [], ignoredReduceFailures := 0,
        counters := [],
        mapMonitoring := decide (state = JobState.running) && decide mapPhase,
        reduceMonitoring := decide (state = JobState.running) && !(decide mapPhase),
        hasRpcClient := decide (state = JobState.running) || decide (state = JobState.pending),
        hasMapGru := false, hasReduceGru := false }

/-- Load also reruns `BuildEndGameCounters` (job_tracker.cc:993); the
thresholds are derived data and are kept out of `loadTracker` so that the
round-trip statements can focus on the caller-observable state, exactly as
the claim lists it. -/
def loadEndGame (cfg : Cfg) (mapTotal reduceTotal : Nat) : EndGame :=
  if mapTotal = 0 then ⟨0, 0, 0⟩
  else buildEndGameCounters cfg.replicaBegin cfg.replicaBeginPercent mapTotal
    (if reduceTotal ≠ 0 then some reduceTotal else none)

/-- One popped map-phase heap entry in `KeepMonitoring`, after the query
phase decided not to restore it as alive (job_tracker.cc:1158-1170): a
Running entry at the parallel-attempts bound is set aside for the next pass,
and when the slug already outnumbers the index the requeue is skipped
(`continue`); otherwise a Killed entry is returned to the pool and the task
id is pushed into the slug FIFO.  Returns (set-aside?, slug, pool). -/
def monitorRequeueMap (parallelAttempts : Int) (top : AllocEntry)
    (pool : List IdItem) (slug : List Nat) (indexSize : Nat) :
    Bool × List Nat × List IdItem :=
  let setAside : Bool :=
    decide ((top.attempt : Int) ≥ parallelAttempts - 1 ∧ top.state = TaskState.running)
  if setAside = true ∧ slug.length > indexSize then (true, slug, pool)
  else
    (setAside,
     slug ++ [top.resourceNo],
     if top.state = TaskState.killed then returnBackItem pool top.resourceNo else pool)

/-- Worker-side state read by `MinionImpl::Query` (minion_impl.cc). -/
structure MinionState where
  overLoaded : Bool
  taskFrozen : Bool
  frozenTime : Int
  jobId : String
  curTaskId : Int
  curAttemptId : Int
  curTaskState : TaskState
deriving DecidableEq, Repr

/-- The fields `Query` may set on its response. -/
structure QueryResponse where
  jobId : String
  taskId : Int
  attemptId : Int
  taskState : TaskState
deriving DecidableEq, Repr

/-- Source `MinionImpl::Query` (minion_impl.cc:119-148): an overloaded worker, or
one frozen for more than 300 seconds, runs the closure without setting any
response field (modelled as none); otherwise the current ids and task state
are filled in. -/
def minionQuery (m : MinionState) (now : Int) : Option QueryResponse :=
  if m.overLoaded then none
  else if m.taskFrozen ∧ m.frozenTime + 300 < now then none
  else some ⟨m.jobId, m.curTaskId, m.curAttemptId, m.curTaskState⟩

/-- The job id the monitor reads out of a query response; an unset protobuf
string field reads back as the empty string. -/
def respJobId : Option QueryResponse → String
  | none => ""
  | some r => r.jobId

/-! Concrete fixtures used to exercise the model on closed inputs. -/

/-- A configuration mirroring the flag defaults of master_flags.cc with a
small map-reduce job descriptor. -/
def cfgDefault : Cfg :=
  { jobType := JobType.mapReduce,
    mapAllowDuplicates := true, reduceAllowDuplicates := true,
    mapCapacity := 10, reduceCapacity := 10,
    mapRetry := 3, reduceRetry := 3,
    ignoreMapFailuresBudget := 2, ignoreReduceFailuresBudget := 0,
    replicaBegin := 100, replicaBeginPercent := 10, replicaNum := 3,
    leftPercent := 120, parallelAttempts := 5, maxCountersPerJob := 100 }

/-- A mid-flight tracker with one map task still pending and one reduce
task. -/
def trackerC1 : Tracker :=
  { initTracker "job_w" 1 with
      mapPool := some (initPool 1), mapTotal := 1,
      reducePool := some (initPool 1), jobState := JobState.running }

/-!  C1.  -/

/-- C1: for every call to FinishReduce, if the map pool's Done count is
strictly below `map_total` and the reported state is not Killed, FinishReduce
returns Suspend and the tracker is completely unchanged (no ledger entry,
pool status, counter or job state is modified). -/
theorem c1_finish_reduce_early_suspend (cfg : Cfg) (env : FinishEnv) (t : Tracker)
    (mp : List IdItem) (no attempt : Nat) (st : TaskState)
    (report : List (String × Int))
    (hmp : t.mapPool = some mp)
    (hlt : doneCount mp < t.mapTotal)
    (hst : st ≠ TaskState.killed) :
    finishReduce cfg env t no attempt st report = (Status.suspend, t) := by
  unfold finishReduce
  rw [hmp]
  simp [hlt, hst]

/-- C1 witness: a concrete early reduce Completed report is suspended with
no state change. -/
theorem c1_finish_reduce_early_suspend_witness :
    finishReduce cfgDefault ⟨false, false, 0⟩ trackerC1 0 0 TaskState.completed []
      = (Status.suspend, trackerC1) :=
  c1_finish_reduce_early_suspend cfgDefault ⟨false, false, 0⟩ trackerC1
    (initPool 1) 0 0 TaskState.completed [] (by decide) (by decide) (by decide)

/-!  C10.  -/

/-- C10: the worker's Query RPC fills in the current job id, task id,
attempt id and task state, except when the worker is overloaded or has been
frozen for more than 300 seconds, in which case the response is returned
with none of these fields set — and a monitor comparing the (defaulted)
empty job id of such a response against a real job id sees a mismatch and
treats the attempt as dead. -/
theorem c10_minion_query (m : MinionState) (now : Int) :
    (m.overLoaded = true → minionQuery m now = none) ∧
    (m.taskFrozen = true → m.frozenTime + 300 < now → minionQuery m now = none) ∧
    (m.overLoaded = false → ¬(m.taskFrozen = true ∧ m.frozenTime + 300 < now) →
      minionQuery m now = some ⟨m.jobId, m.curTaskId, m.curAttemptId, m.curTaskState⟩) ∧
    (∀ jid : String, jid ≠ "" → minionQuery m now = none →
      respJobId (minionQuery m now) ≠ jid) := by
  refine ⟨?_, ?_, ?_, ?_⟩
  · intro h
    simp [minionQuery, h]
  · intro hf hlt
    unfold minionQuery
    by_cases ho : m.overLoaded
    · simp [ho]
    · simp [ho, hf, hlt]
  · intro ho hnf
    unfold minionQuery
    simp only [ho, Bool.false_eq_true, if_false]
    rw [if_neg]
    intro hc
    exact hnf ⟨by simpa using hc.1, hc.2⟩
  · intro jid hjid hnone
    rw [hnone]
    simpa [respJobId] using fun h => hjid h.symm

/-- C10 witness: a worker frozen for over 300 seconds answers empty; the
same worker inside the grace period answers with its current ids. -/
theorem c10_minion_query_witness :
    minionQuery ⟨false, true, 0, "j", 1, 2, TaskState.running⟩ 400 = none ∧
    minionQuery ⟨false, true, 0, "j", 1, 2, TaskState.running⟩ 100 =
      some ⟨"j", 1, 2, TaskState.running⟩ :=
  ⟨(c10_minion_query ⟨false, true, 0, "j", 1, 2, TaskState.running⟩ 400).2.1
      (by decide) (by decide),
   (c10_minion_query ⟨false, true, 0, "j", 1, 2, TaskState.running⟩ 100).2.2.1
      rfl (by decide)⟩

/-!  C8.  -/

/-- C8 counterexample: a popped Running map entry at the parallel-attempts
bound, with the slug NOT larger than the index (0 entries vs 1), is set
aside AND its task id is still pushed into the slug — the claim predicts no
requeue in exactly this situation (and a requeue only when slug is larger,
where the source instead `continue`s past the push). -/
theorem c8_counterexample :
    (monitorRequeueMap 5 ⟨"w", 3, 4, true, TaskState.running, 0, -1⟩ [] [] 1).1 = true ∧
    ¬(List.length ([] : List Nat) > 1) ∧
    (monitorRequeueMap 5 ⟨"w", 3, 4, true, TaskState.running, 0, -1⟩ [] [] 1).2.1
      ≠ ([] : List Nat) := by
  refine ⟨by decide, by decide, by decide⟩

/-- C8 amended: a popped heap entry with attempt at least
`parallelAttempts - 1` that is still Running is set aside to be restored
after the pass, and its task id is pushed into the slug FIFO unless the
slug already outnumbers the index (in which case the requeue is skipped);
the pool is untouched. -/
theorem c8_monitor_requeue (pa : Int) (top : AllocEntry) (pool : List IdItem)
    (slug : List Nat) (idx : Nat)
    (hatt : (top.attempt : Int) ≥ pa - 1)
    (hrun : top.state = TaskState.running) :
    monitorRequeueMap pa top pool slug idx =
      (true, (if slug.length > idx then slug else slug ++ [top.resourceNo]), pool) := by
  unfold monitorRequeueMap
  by_cases h : slug.length > idx
  · simp [hatt, hrun, h]
  · simp [hatt, hrun, h]

/-- C8 witness: a concrete at-bound Running entry with an empty slug is set
aside and still requeued. -/
theorem c8_monitor_requeue_witness :
    monitorRequeueMap 5 ⟨"w", 7, 4, true, TaskState.running, 0, -1⟩ [] [] 0 =
      (true, [7], []) := by
  simpa using
    c8_monitor_requeue 5 ⟨"w", 7, 4, true, TaskState.running, 0, -1⟩ [] [] 0
      (by decide) rfl

/-!  C3.  -/

/-- C3 counterexample: with the output absent and an empty input partition,
`Start` answers NoMore — not OpenFileFail as the claim states (OpenFileFail
is only the internal status of BuildResourceManagers, which Start maps to
NoMore). -/
theorem c3_counterexample :
    (startTracker ⟨false, 0, false⟩ cfgDefault (initTracker "job_c3" 1)).1
      = Status.noMore ∧
    (startTracker ⟨false, 0, false⟩ cfgDefault (initTracker "job_c3" 1)).1
      ≠ Status.openFileFail := by
  refine ⟨by decide, by decide⟩

/-- C3 amended: when the output path already exists, Start returns
WriteFileFail with both totals zeroed and the job Failed (no ledger entry,
no workers); when the partition is empty, BuildResourceManagers reports
OpenFileFail and fails the job, but Start itself returns NoMore. -/
theorem c3_start_failure_modes (env : StartEnv) (cfg : Cfg) (t : Tracker)
    (hgru : t.hasMapGru = false) :
    (env.outputExists = true →
      startTracker env cfg t =
        (Status.writeFileFail,
         { t with mapTotal := 0, reduceTotal := 0, jobState := JobState.failed })) ∧
    (env.outputExists = false → env.partitionCount = 0 →
      (startTracker env cfg t).1 = Status.noMore ∧
      (buildResourceManagers env cfg t).1 = Status.openFileFail ∧
      (startTracker env cfg t).2.jobState = JobState.failed ∧
      (startTracker env cfg t).2.mapTotal = 0 ∧
      (startTracker env cfg t).2.reduceTotal = 0 ∧
      (startTracker env cfg t).2.hasMapGru = false ∧
      (startTracker env cfg t).2.allocTable = t.allocTable) := by
  constructor
  · intro h
    unfold startTracker
    rw [if_pos h]
  · intro h1 h2
    unfold startTracker buildResourceManagers
    simp [h1, h2, hgru]

/-- C3 witness: concrete instances of both failure modes. -/
theorem c3_start_failure_modes_witness :
    startTracker ⟨true, 0, false⟩ cfgDefault (initTracker "job_c3w" 1) =
      (Status.writeFileFail,
       { initTracker "job_c3w" 1 with mapTotal := 0, reduceTotal := 0,
                                      jobState := JobState.failed }) ∧
    (startTracker ⟨false, 0, false⟩ cfgDefault (initTracker "job_c3w" 1)).1
      = Status.noMore :=
  ⟨(c3_start_failure_modes ⟨true, 0, false⟩ cfgDefault (initTracker "job_c3w" 1)
      rfl).1 rfl,
   ((c3_start_failure_modes ⟨false, 0, false⟩ cfgDefault (initTracker "job_c3w" 1)
      rfl).2 rfl rfl).1⟩

/-!  C9.  -/

/-- Total value reported for one counter name in a finish report. -/
def sumReport : List (String × Int) → String → Int
  | [], _ => 0
  | p :: rest, k => (if p.1 = k then p.2 else 0) + sumReport rest k

theorem lookupCounter_addCounter_self (cs : List (String × Int)) (k : String)
    (v : Int) :
    lookupCounter (addCounter cs k v) k = some ((lookupCounter cs k).getD 0 + v) := by
  induction cs with
  | nil => simp [addCounter, lookupCounter]
  | cons p rest ih =>
    by_cases h : p.1 = k
    · simp [addCounter, lookupCounter, h]
    · simp [addCounter, lookupCounter, h, ih]

theorem lookupCounter_addCounter_ne (cs : List (String × Int)) {k k' : String}
    (v : Int) (h : k' ≠ k) :
    lookupCounter (addCounter cs k v) k' = lookupCounter cs k' := by
  induction cs with
  | nil => simp [addCounter, lookupCounter, Ne.symm h]
  | cons p rest ih =>
    by_cases hp : p.1 = k
    · simp [addCounter, lookupCounter, hp, Ne.symm h]
    · by_cases hp' : p.1 = k'
      · simp [addCounter, lookupCounter, hp, hp', h]
      · simp [addCounter, lookupCounter, hp, hp', ih]

theorem lookupCounter_foldl_add (report : List (String × Int))
    (cs : List (String × Int)) (k : String) :
    lookupCounter (report.foldl (fun acc p => addCounter acc p.1 p.2) cs) k =
      (if (lookupCounter cs k).isSome = true ∨
          report.any (fun p => decide (p.1 = k)) = true
       then some ((lookupCounter cs k).getD 0 + sumReport report k) else none) := by
  induction report generalizing cs with
  | nil => cases h : lookupCounter cs k <;> simp [sumReport, h]
  | cons p rest ih =>
    simp only [List.foldl_cons]
    rw [ih]
    by_cases hpk : p.1 = k
    · rw [hpk, lookupCounter_addCounter_self]
      cases h : lookupCounter cs k <;>
        simp [sumReport, hpk, h, Int.add_assoc]
    · rw [lookupCounter_addCounter_ne _ _ (fun hh => hpk hh.symm)]
      have hb : decide (p.1 = k) = false := by
        simp [hpk]
      cases h : lookupCounter cs k <;>
        simp only [sumReport, h, hb, Option.isSome_none, Option.isSome_some,
          Option.getD_none, Option.getD_some, List.any_cons, Bool.false_or,
          if_neg hpk, Int.zero_add, Nat.zero_add, zero_add]

/-- C9 counterexample: with the cap already exceeded (2 distinct names
versus a cap of 1), a report for the EXISTING name "a" is dropped entirely —
the stored value stays 1 instead of being summed to 6, and the whole call
returns false leaving the map untouched; the claim says values for names
already present keep accumulating. -/
theorem c9_counterexample :
    accumulateCounters 1 [("a", 1), ("b", 2)] [("a", 5)]
      = (false, [("a", 1), ("b", 2)]) ∧
    lookupCounter (accumulateCounters 1 [("a", 1), ("b", 2)] [("a", 5)]).2 "a"
      ≠ some 6 := by
  refine ⟨by decide, by decide⟩

/-- C9 amended: once the number of stored distinct counter names exceeds
`maxCountersPerJob`, AccumulateCounters returns false and drops the whole
report — nothing is accumulated, not even for names already present;
otherwise it returns true and every reported value is summed into the
mapping (new names may push the map past the cap within this one call). -/
theorem c9_accumulate_counters (maxC : Nat) (cs report : List (String × Int)) :
    (cs.length > maxC → accumulateCounters maxC cs report = (false, cs)) ∧
    (cs.length ≤ maxC →
      (accumulateCounters maxC cs report).1 = true ∧
      ∀ k, lookupCounter (accumulateCounters maxC cs report).2 k =
        (if (lookupCounter cs k).isSome = true ∨
            report.any (fun p => decide (p.1 = k)) = true
         then some ((lookupCounter cs k).getD 0 + sumReport report k) else none)) := by
  constructor
  · intro h
    unfold accumulateCounters
    rw [if_pos h]
  · intro h
    unfold accumulateCounters
    rw [if_neg (by omega)]
    exact ⟨rfl, fun k => lookupCounter_foldl_add report cs k⟩

/-- C9 witness: below the cap the report is accepted and an existing name
accumulates. -/
theorem c9_accumulate_counters_witness :
    (accumulateCounters 2 [("a", 1)] [("a", 4)]).1 = true ∧
    lookupCounter (accumulateCounters 2 [("a", 1)] [("a", 4)]).2 "a" = some 5 := by
  have h := (c9_accumulate_counters 2 [("a", 1)] [("a", 4)]).2 (by decide)
  exact ⟨h.1, by simpa using h.2 "a"⟩

/-!  C7.  -/

/-- C7: `BuildEndGameCounters` computes exactly
`mapEndGameBegin = min(mapTotal - replicaBegin,
mapTotal - mapTotal * replicaBeginPercent / 100)`,
`reduceBegin = mapTotal - mapTotal * replicaBeginPercent / 100` and
`reduceEndGameBegin = max(reduceTotal - replicaBegin,
reduceTotal * replicaBeginPercent / 100)` in integer arithmetic, for every
job with at least one map task (and a reduce manager for the reduce
thresholds). -/
theorem c7_end_game_thresholds (rb : Int) (pct : Nat) (s r : Nat)
    (_hs : 1 ≤ s) :
    buildEndGameCounters rb pct s (some r) =
      ⟨min ((s : Int) - rb) ((s : Int) - ((s * pct / 100 : Nat) : Int)),
       (s : Int) - ((s * pct / 100 : Nat) : Int),
       max ((r : Int) - rb) (((r * pct / 100 : Nat) : Int))⟩ := by
  have hmin : ∀ a b : Int, (if a > b then b else a) = min a b := by
    intro a b
    by_cases h : a ≤ b
    · rw [if_neg (not_lt.mpr h), min_eq_left h]
    · rw [if_pos (lt_of_not_le h), min_eq_right (le_of_lt (lt_of_not_le h))]
  have hmax : ∀ a b : Int, (if a < b then b else a) = max a b := by
    intro a b
    by_cases h : a < b
    · rw [if_pos h, max_eq_right (le_of_lt h)]
    · rw [if_neg h, max_eq_left (not_lt.mp h)]
  unfold buildEndGameCounters
  dsimp only
  rw [hmin, hmax]

/-- C7 witness: the thresholds for a 50-map / 7-reduce job with the default
flags. -/
theorem c7_end_game_thresholds_witness :
    buildEndGameCounters 100 10 50 (some 7) = ⟨-50, 45, 0⟩ := by
  simpa using c7_end_game_thresholds 100 10 50 7 (by decide)

/-!  C6.  -/

theorem ceil_div_hundred (n : Nat) :
    ⌈(n : ℚ) / 100⌉ = ((n + 99) / 100 : Nat) := by
  have h100 : (0 : ℚ) < 100 := by norm_num
  have hn1 : n ≤ ((n + 99) / 100) * 100 := by omega
  have hn2 : ((n + 99) / 100) * 100 ≤ n + 99 := by omega
  rw [Int.ceil_eq_iff]
  constructor
  · rw [lt_div_iff₀ h100]
    have h1 : (((((n + 99) / 100 : Nat) : Int)) : ℚ) * 100 ≤ (n : ℚ) + 99 := by
      exact_mod_cast hn2
    linarith
  · rw [div_le_iff₀ h100]
    exact_mod_cast hn1

/-- The double-precision ceiling in `CanMapDismiss` agrees with the integer
ceiling division the model uses, for the non-negative operand
`max(notDone, 5) * leftPercent`. -/
theorem dismissBudget_eq_ceil (capacity notDone : Int) (lp : Nat) :
    dismissBudget capacity notDone lp =
      capacity - ⌈((max notDone 5 * (lp : Int) : Int) : ℚ) / 100⌉ := by
  have hpos : (0 : Int) ≤ max notDone 5 := le_trans (by norm_num) (le_max_right _ _)
  have h1 : (((max notDone 5).toNat : Int)) = max notDone 5 := Int.toNat_of_nonneg hpos
  have hcast : ((max notDone 5 * (lp : Int) : Int) : ℚ) =
      (((max notDone 5).toNat * lp : Nat) : ℚ) := by
    conv_lhs => rw [← h1]
    push_cast
    ring
  rw [dismissBudget, hcast, ceil_div_hundred]
  rfl

/-- C6: with `notDone = mapTotal - Done` and
`budget = mapCapacity - ceil(max(notDone,5) * leftPercent / 100)`:
when `mapCapacity ≤ notDone` CanMapDismiss answers Suspend; otherwise it
answers Suspend exactly when `dismissed.size() ≥ budget` (the boundary
comparison), and otherwise inserts the endpoint into the dismissed set and
answers NoMore. -/
theorem c6_can_map_dismiss (cfg : Cfg) (mapTotal doneCnt : Nat)
    (dismissed : List String) (e : String) (notDone budget : Int)
    (hnd : notDone = (mapTotal : Int) - (doneCnt : Int))
    (hb : budget = cfg.mapCapacity -
      ⌈((max notDone 5 * (cfg.leftPercent : Int) : Int) : ℚ) / 100⌉) :
    (cfg.mapCapacity ≤ notDone →
      canMapDismiss cfg mapTotal doneCnt dismissed e = (Status.suspend, dismissed)) ∧
    (notDone < cfg.mapCapacity → (dismissed.length : Int) ≥ budget →
      canMapDismiss cfg mapTotal doneCnt dismissed e = (Status.suspend, dismissed)) ∧
    (notDone < cfg.mapCapacity → (dismissed.length : Int) < budget →
      canMapDismiss cfg mapTotal doneCnt dismissed e =
        (Status.noMore, setInsertStr dismissed e)) := by
  have hbud : budget = dismissBudget cfg.mapCapacity notDone cfg.leftPercent := by
    rw [hb, dismissBudget_eq_ceil]
  subst hnd
  refine ⟨?_, ?_, ?_⟩
  · intro h
    unfold canMapDismiss
    rw [if_neg (not_lt.mpr h)]
  · intro h1 h2
    unfold canMapDismiss
    rw [if_pos h1, if_pos (by rw [← hbud]; exact h2)]
  · intro h1 h2
    unfold canMapDismiss
    rw [if_pos h1, if_neg (by rw [← hbud]; exact not_le.mpr h2)]

/-- C6 witness: a fully Done 5-map job with capacity 10: the first polling
worker is below the budget of 4 and is dismissed with NoMore. -/
theorem c6_can_map_dismiss_witness :
    canMapDismiss cfgDefault 5 5 [] "w" = (Status.noMore, ["w"]) := by
  have h := c6_can_map_dismiss cfgDefault 5 5 [] "w" 0 4 (by decide)
    (by norm_num [cfgDefault])
  simpa [setInsertStr] using h.2.2 (by decide) (by decide)

/-!  C2.  -/

theorem finishItem_of_isDone (p : List IdItem) (n : Nat) (h : isDone p n = true) :
    finishItem p n = (false, p) := by
  unfold isDone at h
  unfold finishItem
  split
  next hf => rfl
  next it hf =>
    rw [hf] at h
    simp only [decide_eq_true_eq] at h
    simp [h]

theorem isDone_of_finishItem_fst (p : List IdItem) (n : Nat)
    (h : (finishItem p n).1 = true) : isDone p n = false := by
  unfold finishItem at h
  unfold isDone
  split at h
  next hf =>
    simp at h
  next it hf =>
    rw [hf]
    by_cases hd : it.status = ResStatus.done
    · rw [if_pos hd] at h
      simp at h
    · simp [hd]

theorem allocFind_eq_some {t : Tracker} {b : Bool} {no a : Nat} {e : AllocEntry}
    (h : allocFind t b no a = some e) :
    e.isMap = b ∧ e.resourceNo = no ∧ e.attempt = a := by
  have h2 := List.find?_some h
  exact of_decide_eq_true h2

/-- C2: the pool transitions a task to Done at most once — FinishItem
answers true only when the task was not yet Done, and is the identity
returning false on a Done task — and a second Completed report for another
attempt of an already-Done `no` is committed as Canceled: FinishMap answers
Ok, flips only that ledger entry to Canceled, and leaves the user counters,
the failure counter, the pool and the slug untouched. -/
theorem c2_first_completed_wins (cfg : Cfg) (env : FinishEnv) (t : Tracker)
    (pool : List IdItem) (no a : Nat) (e : AllocEntry)
    (report : List (String × Int))
    (hmp : t.mapPool = some pool)
    (hdone : isDone pool no = true)
    (hfind : allocFind t true no a = some e)
    (hrun : e.state = TaskState.running) :
    (∀ (p : List IdItem) (n : Nat), (finishItem p n).1 = true → isDone p n = false) ∧
    (∀ (p : List IdItem) (n : Nat), isDone p n = true → finishItem p n = (false, p)) ∧
    finishMap cfg env t no a TaskState.completed report =
      (Status.ok, commitAlloc t true no a TaskState.canceled env.now) ∧
    (commitAlloc t true no a TaskState.canceled env.now).counters = t.counters ∧
    (commitAlloc t true no a TaskState.canceled env.now).mapFailed = t.mapFailed ∧
    (commitAlloc t true no a TaskState.canceled env.now).mapPool = t.mapPool ∧
    (commitAlloc t true no a TaskState.canceled env.now).mapSlug = t.mapSlug := by
  obtain ⟨hb, hno, ha⟩ := allocFind_eq_some hfind
  refine ⟨isDone_of_finishItem_fst, finishItem_of_isDone, ?_, rfl, rfl, rfl, rfl⟩
  have hfin := finishItem_of_isDone pool no hdone
  unfold finishMap
  rw [hmp, hfind]
  dsimp only
  simp [hrun, hno, finishMapState2, finishMapBranch, finishMapCompleted,
    finishMapCommit, hfin]

/-- C2 witness: a one-map job whose task 0 is Done with a lingering Running
attempt 1; the late Completed report for attempt 1 is canceled with no
counter or failure-count effect. -/
theorem c2_first_completed_wins_witness :
    finishMap cfgDefault ⟨false, false, 4⟩
      { initTracker "job_c2" 1 with
          mapPool := some [⟨0, 1, ResStatus.done, 0⟩], mapTotal := 1,
          counters := [("x", 2)],
          allocTable := [⟨"w1:1", 0, 0, true, TaskState.completed, 0, 1⟩,
                         ⟨"w2:1", 0, 1, true, TaskState.running, 2, -1⟩] }
      0 1 TaskState.completed [("x", 7)] =
      (Status.ok, commitAlloc
        { initTracker "job_c2" 1 with
            mapPool := some [⟨0, 1, ResStatus.done, 0⟩], mapTotal := 1,
            counters := [("x", 2)],
            allocTable := [⟨"w1:1", 0, 0, true, TaskState.completed, 0, 1⟩,
                           ⟨"w2:1", 0, 1, true, TaskState.running, 2, -1⟩] }
        true 0 1 TaskState.canceled 4) :=
  (c2_first_completed_wins cfgDefault ⟨false, false, 4⟩ _
    [⟨0, 1, ResStatus.done, 0⟩] 0 1
    ⟨"w2:1", 0, 1, true, TaskState.running, 2, -1⟩ [("x", 7)]
    rfl (by decide) (by decide) rfl).2.2.1

/-!  C5.  -/

theorem length_updateItem (p : List IdItem) (no : Nat) (f : IdItem → IdItem) :
    (updateItem p no f).length = p.length := by
  unfold updateItem
  exact List.length_map _ _

theorem length_replayStep (b : Bool) (n : Nat) (tb : List IdItem) (e : AllocEntry) :
    (replayStep b n tb e).length = tb.length := by
  unfold replayStep
  split
  · rfl
  · exact length_updateItem _ _ _

theorem length_replayFold (b : Bool) (n : Nat) (h : List AllocEntry) :
    ∀ init : List IdItem, (h.foldl (replayStep b n) init).length = init.length := by
  induction h with
  | nil => intro init; rfl
  | cons e rest ih =>
    intro init
    rw [List.foldl_cons, ih, length_replayStep]

theorem length_replay (h : List AllocEntry) (n : Nat) (b : Bool) :
    (replay h n b).length = n := by
  rw [replay, length_replayFold]
  unfold replayInit
  rw [List.length_map, List.length_range]

/-- The consistency invariant relating a tracker's pools and counters to its
own allocation history: the pool id-state equals the Replay reconstruction
and the killed/failed counters equal the tallies of Killed/Failed ledger
entries.  Normal Assign/Finish traces maintain it; `Kill` breaks the pool
half (it marks entries Killed without returning pool items) and
`CancelOtherAttempts` breaks the counter half (it rewrites already-terminal
Failed/Killed entries to Canceled without adjusting the counters). -/
def HistoryConsistent (t : Tracker) : Prop :=
  t.mapPool = (if t.mapTotal ≠ 0 then some (replay t.allocTable t.mapTotal true)
               else none) ∧
  t.reducePool = (if t.reduceTotal ≠ 0 then some (replay t.allocTable t.reduceTotal false)
                  else none) ∧
  t.mapKilled = countEntries true TaskState.killed t.allocTable ∧
  t.mapFailed = countEntries true TaskState.failed t.allocTable ∧
  t.reduceKilled = countEntries false TaskState.killed t.allocTable ∧
  t.reduceFailed = countEntries false TaskState.failed t.allocTable

instance (t : Tracker) : Decidable (HistoryConsistent t) := by
  unfold HistoryConsistent
  infer_instance

/-- The caller-observable state listed by the round-trip property: per-task
pool id-state (status, attempt, allocated count), ledger entries with their
states, job state, and the killed/failed counters. -/
def ObsEq (a b : Tracker) : Prop :=
  a.mapPool = b.mapPool ∧ a.reducePool = b.reducePool ∧
  a.allocTable = b.allocTable ∧ a.jobState = b.jobState ∧
  a.mapKilled = b.mapKilled ∧ a.mapFailed = b.mapFailed ∧
  a.reduceKilled = b.reduceKilled ∧ a.reduceFailed = b.reduceFailed

/-- C5 amended: Load after Dump reproduces all the caller-observable state
(pool statuses, attempts and allocated counts, ledger entries with their
states, job state, killed/failed counters) for every tracker satisfying
`HistoryConsistent` — pools matching the Replay of the history and counters
matching the entry tallies; the claim's unrestricted version fails, e.g.
for post-Kill trackers. -/
theorem c5_load_dump_roundtrip (t : Tracker) (h : HistoryConsistent t) :
    ∃ t', loadTracker t.mapTotal t.reduceTotal t.jobId t.jobState
      (dumpHistory t) (dumpResource t) = some t' ∧ ObsEq t t' := by
  obtain ⟨h1, h2, h3, h4, h5, h6⟩ := h
  unfold loadTracker dumpHistory dumpResource
  have hguard : ¬(t.mapTotal ≠ 0 ∧
      (match t.mapPool with | some p => p | none => []).length ≠ t.mapTotal) := by
    rintro ⟨hm, hlen⟩
    rw [h1, if_pos hm] at hlen
    exact hlen (length_replay _ _ _)
  rw [if_neg hguard]
  refine ⟨_, rfl, ?_⟩
  unfold ObsEq
  exact ⟨h1, h2, rfl, rfl, h3, h4, h5, h6⟩

/-- C5 witness: a consistent one-map tracker with a Running attempt survives
the dump/load round trip observably unchanged. -/
theorem c5_load_dump_roundtrip_witness :
    ∃ t', loadTracker
      ({ initTracker "job_c5w" 0 with
           mapPool := some (replay [⟨"w:1", 0, 0, true, TaskState.running, 0, -1⟩] 1 true),
           mapTotal := 1,
           allocTable := [⟨"w:1", 0, 0, true, TaskState.running, 0, -1⟩],
           jobState := JobState.running } : Tracker).mapTotal
      ({ initTracker "job_c5w" 0 with
           mapPool := some (replay [⟨"w:1", 0, 0, true, TaskState.running, 0, -1⟩] 1 true),
           mapTotal := 1,
           allocTable := [⟨"w:1", 0, 0, true, TaskState.running, 0, -1⟩],
           jobState := JobState.running } : Tracker).reduceTotal
      ({ initTracker "job_c5w" 0 with
           mapPool := some (replay [⟨"w:1", 0, 0, true, TaskState.running, 0, -1⟩] 1 true),
           mapTotal := 1,
           allocTable := [⟨"w:1", 0, 0, true, TaskState.running, 0, -1⟩],
           jobState := JobState.running } : Tracker).jobId
      ({ initTracker "job_c5w" 0 with
           mapPool := some (replay [⟨"w:1", 0, 0, true, TaskState.running, 0, -1⟩] 1 true),
           mapTotal := 1,
           allocTable := [⟨"w:1", 0, 0, true, TaskState.running, 0, -1⟩],
           jobState := JobState.running } : Tracker).jobState
      (dumpHistory
        { initTracker "job_c5w" 0 with
            mapPool := some (replay [⟨"w:1", 0, 0, true, TaskState.running, 0, -1⟩] 1 true),
            mapTotal := 1,
            allocTable := [⟨"w:1", 0, 0, true, TaskState.running, 0, -1⟩],
            jobState := JobState.running })
      (dumpResource
        { initTracker "job_c5w" 0 with
            mapPool := some (replay [⟨"w:1", 0, 0, true, TaskState.running, 0, -1⟩] 1 true),
            mapTotal := 1,
            allocTable := [⟨"w:1", 0, 0, true, TaskState.running, 0, -1⟩],
            jobState := JobState.running }) = some t' ∧
    ObsEq
      { initTracker "job_c5w" 0 with
          mapPool := some (replay [⟨"w:1", 0, 0, true, TaskState.running, 0, -1⟩] 1 true),
          mapTotal := 1,
          allocTable := [⟨"w:1", 0, 0, true, TaskState.running, 0, -1⟩],
          jobState := JobState.running } t' :=
  c5_load_dump_roundtrip _ (by decide)

/-- A map-only one-task job whose single attempt is killed via `Kill`: the
pool keeps its Allocated item (Kill never returns items), while the ledger
entry becomes Killed. -/
def trackerC5kill : Tracker :=
  killTracker
    ((assignMap { cfgDefault with jobType := JobType.mapOnly }
        ((startTracker ⟨false, 1, false⟩ { cfgDefault with jobType := JobType.mapOnly }
            (initTracker "job_c5" 0)).2)
        "w:1" 0).2.2)
    JobState.killed 5

/-- C5 counterexample: for the post-Kill tracker the reload succeeds but
reconstructs the single map task as Pending (Replay of a Killed entry),
while the original pool still holds it Allocated — `Load(Dump(J)) ≡ J` fails
on pool status for this reachable `J`. -/
theorem c5_counterexample :
    (loadTracker trackerC5kill.mapTotal trackerC5kill.reduceTotal
        trackerC5kill.jobId trackerC5kill.jobState
        (dumpHistory trackerC5kill) (dumpResource trackerC5kill)).isSome = true ∧
    Option.map (fun t' => t'.mapPool)
        (loadTracker trackerC5kill.mapTotal trackerC5kill.reduceTotal
          trackerC5kill.jobId trackerC5kill.jobState
          (dumpHistory trackerC5kill) (dumpResource trackerC5kill))
      ≠ some trackerC5kill.mapPool := by
  refine ⟨by decide, by decide⟩

/-!  C4.  -/

theorem countAt_nil (no : Nat) : countAt [] no = 0 := by
  cases no <;> rfl

theorem countAt_replicate_zero (r no : Nat) : countAt (List.replicate r 0) no = 0 := by
  induction r generalizing no with
  | zero => exact countAt_nil no
  | succ n ih =>
    cases no with
    | zero => rfl
    | succ m => exact ih m

theorem countAt_bumpAt_self_le (l : List Nat) (no : Nat) :
    countAt (bumpAt l no) no ≤ countAt l no + 1 := by
  induction l generalizing no with
  | nil => simp [bumpAt, countAt_nil]
  | cons x xs ih =>
    cases no with
    | zero => simp [bumpAt, countAt]
    | succ m =>
      have := ih m
      simpa [bumpAt, countAt] using this

theorem countAt_bumpAt_ne (l : List Nat) {no no' : Nat} (h : no' ≠ no) :
    countAt (bumpAt l no) no' = countAt l no' := by
  induction l generalizing no no' with
  | nil => simp [bumpAt]
  | cons x xs ih =>
    cases no with
    | zero =>
      cases no' with
      | zero => exact absurd rfl h
      | succ m' => simp [bumpAt, countAt]
    | succ m =>
      cases no' with
      | zero => simp [bumpAt, countAt]
      | succ m' =>
        have h2 := @ih m m' (fun hc => h (by rw [hc]))
        simpa [bumpAt, countAt] using h2

theorem nodesAt_insertNode_self (fn : List (Nat × List String)) (no : Nat)
    (node : String) :
    nodesAt (insertNode fn no node) no = nodesAt fn no ++ [node] := by
  induction fn with
  | nil => simp [insertNode, nodesAt]
  | cons p rest ih =>
    by_cases hp : p.1 = no
    · simp [insertNode, nodesAt, hp]
    · simp [insertNode, nodesAt, hp, ih]

theorem nodesAt_insertNode_ne (fn : List (Nat × List String)) {no no' : Nat}
    (node : String) (h : no' ≠ no) :
    nodesAt (insertNode fn no node) no' = nodesAt fn no' := by
  induction fn with
  | nil => simp [insertNode, nodesAt, Ne.symm h]
  | cons p rest ih =>
    by_cases hp : p.1 = no
    · have hp' : ¬p.1 = no' := fun hc => h (by rw [← hc, hp])
      simp [insertNode, nodesAt, hp, hp', Ne.symm h]
    · by_cases hp' : p.1 = no'
      · simp [insertNode, nodesAt, hp, hp', h]
      · simp [insertNode, nodesAt, hp, hp', h, ih]

theorem length_setInsert_le (l : List Nat) (a : Nat) :
    (setInsert l a).length ≤ l.length + 1 := by
  unfold setInsert
  split
  · exact Nat.le_succ _
  · simp

/-- The failure-bookkeeping update of the Failed branches: bumping the count
and inserting the node preserves the per-task bound. -/
theorem count_le_nodes_bump_insert (fc : List Nat) (fn : List (Nat × List String))
    (curNo : Nat) (node : String)
    (h : ∀ no', countAt fc no' ≤ (nodesAt fn no').length) :
    ∀ no', countAt (bumpAt fc curNo) no' ≤
      (nodesAt (insertNode fn curNo node) no').length := by
  intro no'
  by_cases hc : no' = curNo
  · subst hc
    rw [nodesAt_insertNode_self]
    calc countAt (bumpAt fc no') no' ≤ countAt fc no' + 1 := countAt_bumpAt_self_le fc no'
      _ ≤ (nodesAt fn no').length + 1 := Nat.succ_le_succ (h no')
      _ = (nodesAt fn no' ++ [node]).length := by simp
  · rw [countAt_bumpAt_ne fc hc, nodesAt_insertNode_ne fn node hc]
    exact h no'

/-- The C4 invariant: per-task failure counts bounded by the sets of failing
nodes, and the ignore-failure accounting bounded by its budget. -/
def InvC4 (cfg : Cfg) (t : Tracker) : Prop :=
  (∀ no, countAt t.failedCount no ≤ (nodesAt t.failedNodes no).length) ∧
  t.ignoreFailureMappers.length ≤ t.ignoredMapFailures ∧
  t.ignoredMapFailures ≤ cfg.ignoreMapFailuresBudget

theorem invC4_of_fields (cfg : Cfg) {t t' : Tracker}
    (hfc : t'.failedCount = t.failedCount)
    (hfn : t'.failedNodes = t.failedNodes)
    (hig : t'.ignoreFailureMappers = t.ignoreFailureMappers)
    (hic : t'.ignoredMapFailures = t.ignoredMapFailures)
    (h : InvC4 cfg t) : InvC4 cfg t' := by
  obtain ⟨h1, h2, h3⟩ := h
  refine ⟨fun no => ?_, ?_, ?_⟩
  · rw [hfc, hfn]; exact h1 no
  · rw [hig, hic]; exact h2
  · rw [hic]; exact h3

theorem invC4_finishMapFailed (cfg : Cfg) (t : Tracker) (pool : List IdItem)
    (curNo : Nat) (node : String) (h : InvC4 cfg t) :
    InvC4 cfg (finishMapFailed cfg t pool curNo node).1 := by
  obtain ⟨h1, h2, h3⟩ := h
  unfold finishMapFailed
  dsimp only
  by_cases hn : node ∈ nodesAt t.failedNodes curNo
  · rw [if_pos hn]
    split
    next hc1 =>
      split
      next hc2 =>
        exact ⟨h1, le_trans (length_setInsert_le _ _) (Nat.succ_le_succ h2),
          Nat.succ_le_of_lt hc2⟩
      next hc2 => exact ⟨h1, h2, h3⟩
    next hc1 => exact ⟨h1, h2, h3⟩
  · rw [if_neg hn]
    have h1' := count_le_nodes_bump_insert t.failedCount t.failedNodes curNo node h1
    split
    next hc1 =>
      split
      next hc2 =>
        exact ⟨h1', le_trans (length_setInsert_le _ _) (Nat.succ_le_succ h2),
          Nat.succ_le_of_lt hc2⟩
      next hc2 => exact ⟨h1', h2, h3⟩
    next hc1 => exact ⟨h1', h2, h3⟩

theorem invC4_finishReduceFailed (cfg : Cfg) (t : Tracker) (pool : List IdItem)
    (curNo : Nat) (node : String) (h : InvC4 cfg t) :
    InvC4 cfg (finishReduceFailed cfg t pool curNo node).1 := by
  obtain ⟨h1, h2, h3⟩ := h
  unfold finishReduceFailed
  dsimp only
  by_cases hn : node ∈ nodesAt t.failedNodes curNo
  · rw [if_pos hn]
    split
    next hc1 =>
      split
      next hc2 => exact ⟨h1, h2, h3⟩
      next hc2 => exact ⟨h1, h2, h3⟩
    next hc1 => exact ⟨h1, h2, h3⟩
  · rw [if_neg hn]
    have h1' := count_le_nodes_bump_insert t.failedCount t.failedNodes curNo node h1
    split
    next hc1 =>
      split
      next hc2 => exact ⟨h1', h2, h3⟩
      next hc2 => exact ⟨h1', h2, h3⟩
    next hc1 => exact ⟨h1', h2, h3⟩

theorem invC4_finishMapPhaseEnd (cfg : Cfg) (t1 : Tracker) (pool1 : List IdItem)
    (c : Nat) (h : InvC4 cfg t1) :
    InvC4 cfg (finishMapPhaseEnd cfg t1 pool1 c).1 := by
  obtain ⟨h1, h2, h3⟩ := h
  unfold finishMapPhaseEnd
  dsimp only
  split
  · split
    · exact ⟨h1, h2, h3⟩
    · refine ⟨fun no => ?_, h2, h3⟩
      simp [countAt_replicate_zero, nodesAt]
  · exact ⟨h1, h2, h3⟩

theorem invC4_finishMapCompleted (cfg : Cfg) (env : FinishEnv) (t : Tracker)
    (pool : List IdItem) (curNo : Nat) (rep : List (String × Int))
    (h : InvC4 cfg t) :
    InvC4 cfg (finishMapCompleted cfg env t pool curNo rep).2.1 := by
  unfold finishMapCompleted
  dsimp only
  split
  next => exact h
  next pool1 hfi =>
    split
    · split
      · exact invC4_of_fields cfg rfl rfl rfl rfl h
      · exact invC4_finishMapPhaseEnd cfg _ pool1 _
          (invC4_of_fields cfg rfl rfl rfl rfl h)
    · exact invC4_finishMapPhaseEnd cfg _ pool1 _
        (invC4_of_fields cfg rfl rfl rfl rfl h)

theorem invC4_finishReduceCompleted (cfg : Cfg) (t : Tracker)
    (pool : List IdItem) (curNo : Nat) (rep : List (String × Int))
    (h : InvC4 cfg t) :
    InvC4 cfg (finishReduceCompleted cfg t pool curNo rep).2.1 := by
  unfold finishReduceCompleted
  dsimp only
  split
  next => exact h
  next pool1 hfi =>
    split
    · exact invC4_of_fields cfg rfl rfl rfl rfl h
    · exact invC4_of_fields cfg rfl rfl rfl rfl h

theorem invC4_finishMapCommit (cfg : Cfg) (env : FinishEnv) (no a curNo : Nat)
    (s3 : TaskState) (t1 : Tracker) (fin : Bool) (h : InvC4 cfg t1) :
    InvC4 cfg (finishMapCommit cfg env no a curNo s3 t1 fin).2 := by
  unfold finishMapCommit commitAlloc cancelOtherAttempts
  dsimp only
  repeat' split
  all_goals exact invC4_of_fields cfg rfl rfl rfl rfl h

theorem invC4_finishReduceCommit (cfg : Cfg) (env : FinishEnv) (no a curNo : Nat)
    (s3 : TaskState) (t1 : Tracker) (fin : Bool) (h : InvC4 cfg t1) :
    InvC4 cfg (finishReduceCommit cfg env no a curNo s3 t1 fin).2 := by
  unfold finishReduceCommit commitAlloc cancelOtherAttempts
  dsimp only
  repeat' split
  all_goals exact invC4_of_fields cfg rfl rfl rfl rfl h

theorem invC4_finishMap_tail (cfg : Cfg) (env : FinishEnv) (t : Tracker)
    (pool : List IdItem) (no a curNo : Nat) (curNode : String)
    (rep : List (String × Int)) (s2 : TaskState) (h : InvC4 cfg t) :
    InvC4 cfg ((match finishMapBranch cfg env t pool curNo curNode rep s2 with
      | none => (Status.noMore, t)
      | some (s3, t1, fin) =>
        finishMapCommit cfg env no a curNo s3 t1 fin).2) := by
  cases s2 <;> dsimp only [finishMapBranch]
  case running => exact h
  case moveOutputFailed => exact h
  case unknown => exact h
  case completed =>
    rcases hfc : finishMapCompleted cfg env t pool curNo rep with ⟨s3, t1, fin⟩
    have hInv := invC4_finishMapCompleted cfg env t pool curNo rep h
    rw [hfc] at hInv
    exact invC4_finishMapCommit cfg env no a curNo s3 t1 fin hInv
  case failed =>
    have hInv := invC4_finishMapFailed cfg t pool curNo curNode h
    exact invC4_finishMapCommit cfg env no a curNo _ _ _ hInv
  case killed =>
    exact invC4_finishMapCommit cfg env no a curNo _ _ _
      (invC4_of_fields cfg rfl rfl rfl rfl h)
  case canceled =>
    split
    · exact invC4_finishMapCommit cfg env no a curNo _ _ _ h
    · exact invC4_finishMapCommit cfg env no a curNo _ _ _
        (invC4_of_fields cfg rfl rfl rfl rfl h)

theorem invC4_finishReduce_tail (cfg : Cfg) (env : FinishEnv) (t : Tracker)
    (pool : List IdItem) (no a curNo : Nat) (curNode : String)
    (rep : List (String × Int)) (s2 : TaskState) (h : InvC4 cfg t) :
    InvC4 cfg ((match finishReduceBranch cfg t pool curNo curNode rep s2 with
      | none => (Status.noMore, t)
      | some (s3, t1, fin) =>
        finishReduceCommit cfg env no a curNo s3 t1 fin).2) := by
  cases s2 <;> dsimp only [finishReduceBranch]
  case running => exact h
  case moveOutputFailed => exact h
  case unknown => exact h
  case completed =>
    rcases hfc : finishReduceCompleted cfg t pool curNo rep with ⟨s3, t1, fin⟩
    have hInv := invC4_finishReduceCompleted cfg t pool curNo rep h
    rw [hfc] at hInv
    exact invC4_finishReduceCommit cfg env no a curNo s3 t1 fin hInv
  case failed =>
    have hInv := invC4_finishReduceFailed cfg t pool curNo curNode h
    exact invC4_finishReduceCommit cfg env no a curNo _ _ _ hInv
  case killed =>
    exact invC4_finishReduceCommit cfg env no a curNo _ _ _
      (invC4_of_fields cfg rfl rfl rfl rfl h)
  case canceled =>
    split
    · exact invC4_finishReduceCommit cfg env no a curNo _ _ _ h
    · exact invC4_finishReduceCommit cfg env no a curNo _ _ _
        (invC4_of_fields cfg rfl rfl rfl rfl h)

theorem invC4_finishMap (cfg : Cfg) (env : FinishEnv) (t : Tracker)
    (no a : Nat) (st : TaskState) (rep : List (String × Int)) (h : InvC4 cfg t) :
    InvC4 cfg (finishMap cfg env t no a st rep).2 := by
  unfold finishMap
  cases hmp : t.mapPool with
  | none => exact h
  | some pool =>
    cases hf : allocFind t true no a with
    | none => exact h
    | some cur =>
      dsimp only
      by_cases hrun : cur.state ≠ TaskState.running
      · rw [if_pos hrun]
        exact h
      · rw [if_neg hrun]
        exact invC4_finishMap_tail cfg env t pool no a cur.resourceNo
          (nodeOf cur.endpoint) rep _ h

theorem invC4_finishReduce (cfg : Cfg) (env : FinishEnv) (t : Tracker)
    (no a : Nat) (st : TaskState) (rep : List (String × Int)) (h : InvC4 cfg t) :
    InvC4 cfg (finishReduce cfg env t no a st rep).2 := by
  unfold finishReduce
  split
  · exact h
  · cases hrp : t.reducePool with
    | none => exact h
    | some pool =>
      cases hf : allocFind t false no a with
      | none => exact h
      | some cur =>
        dsimp only
        by_cases hrun : cur.state ≠ TaskState.running
        · rw [if_pos hrun]
          exact h
        · rw [if_neg hrun]
          exact invC4_finishReduce_tail cfg env t pool no a cur.resourceNo
            (nodeOf cur.endpoint) rep _ h

theorem invC4_assignMap (cfg : Cfg) (t : Tracker) (e : String) (now : Int)
    (h : InvC4 cfg t) : InvC4 cfg (assignMap cfg t e now).2.2 := by
  unfold assignMap assignMapFinish
  dsimp only
  repeat' split
  all_goals exact invC4_of_fields cfg rfl rfl rfl rfl h

theorem invC4_assignReduce (cfg : Cfg) (t : Tracker) (e : String) (now : Int)
    (h : InvC4 cfg t) : InvC4 cfg (assignReduce cfg t e now).2.2 := by
  unfold assignReduce assignReduceFinish
  dsimp only
  repeat' split
  all_goals exact invC4_of_fields cfg rfl rfl rfl rfl h

theorem invC4_kill (cfg : Cfg) (t : Tracker) (s : JobState) (now : Int)
    (h : InvC4 cfg t) : InvC4 cfg (killTracker t s now) := by
  exact invC4_of_fields cfg rfl rfl rfl rfl h

theorem invC4_buildResourceManagers (cfg : Cfg) (env : StartEnv) (jobid : String)
    (reduceTotal : Nat) :
    InvC4 cfg (buildResourceManagers env cfg (initTracker jobid reduceTotal)).2 := by
  unfold buildResourceManagers initTracker
  dsimp only
  split
  · exact ⟨fun no => by simp [countAt_nil, nodesAt], by simp, Nat.zero_le _⟩
  · split <;>
      exact ⟨fun no => by simp [countAt_replicate_zero, nodesAt], by simp, Nat.zero_le _⟩

theorem invC4_start (cfg : Cfg) (env : StartEnv) (jobid : String)
    (reduceTotal : Nat) :
    InvC4 cfg (startTracker env cfg (initTracker jobid reduceTotal)).2 := by
  unfold startTracker
  by_cases ho : env.outputExists
  · rw [if_pos ho]
    exact ⟨fun no => by simp [initTracker, countAt_nil, nodesAt],
      by simp [initTracker], Nat.zero_le _⟩
  · rw [if_neg ho]
    rcases hb : buildResourceManagers env cfg (initTracker jobid reduceTotal)
      with ⟨s, t1⟩
    have hInv : InvC4 cfg t1 := by
      have h2 := invC4_buildResourceManagers cfg env jobid reduceTotal
      rw [hb] at h2
      exact h2
    cases s <;> dsimp only
    all_goals first
      | exact hInv
      | split <;> exact invC4_of_fields cfg rfl rfl rfl rfl hInv

theorem invC4_load (cfg : Cfg) (mT rT : Nat) (jobid : String) (st : JobState)
    (data : List AllocEntry) (res : List IdItem) (t' : Tracker)
    (h : loadTracker mT rT jobid st data res = some t') : InvC4 cfg t' := by
  unfold loadTracker at h
  split at h
  · exact absurd h (by simp)
  · have heq := Option.some.inj h
    subst heq
    refine ⟨fun no => ?_, by simp, Nat.zero_le _⟩
    dsimp only
    split <;> simp [countAt_replicate_zero, nodesAt]

theorem finishMapFailed_node_seen (cfg : Cfg) (t : Tracker) (pool : List IdItem)
    (curNo : Nat) (node : String) (h : node ∈ nodesAt t.failedNodes curNo) :
    (finishMapFailed cfg t pool curNo node).1.failedCount = t.failedCount ∧
    (finishMapFailed cfg t pool curNo node).1.failedNodes = t.failedNodes := by
  unfold finishMapFailed
  dsimp only
  rw [if_pos h]
  repeat' split
  all_goals exact ⟨rfl, rfl⟩

theorem finishMapFailed_ignore_guard (cfg : Cfg) (t : Tracker)
    (pool : List IdItem) (curNo : Nat) (node : String)
    (hch : (finishMapFailed cfg t pool curNo node).1.ignoreFailureMappers
      ≠ t.ignoreFailureMappers) :
    cfg.mapRetry ≤ countAt (finishMapFailed cfg t pool curNo node).1.failedCount curNo ∧
    t.ignoredMapFailures < cfg.ignoreMapFailuresBudget := by
  unfold finishMapFailed at hch ⊢
  dsimp only at hch ⊢
  by_cases hn : node ∈ nodesAt t.failedNodes curNo
  · rw [if_pos hn] at hch ⊢
    by_cases hc1 : cfg.mapRetry ≤ countAt t.failedCount curNo
    · rw [if_pos hc1] at hch ⊢
      by_cases hc2 : t.ignoredMapFailures < cfg.ignoreMapFailuresBudget
      · rw [if_pos hc2]
        exact ⟨hc1, hc2⟩
      · rw [if_neg hc2] at hch
        exact absurd rfl hch
    · rw [if_neg hc1] at hch
      exact absurd rfl hch
  · rw [if_neg hn] at hch ⊢
    by_cases hc1 : cfg.mapRetry ≤ countAt (bumpAt t.failedCount curNo) curNo
    · rw [if_pos hc1] at hch ⊢
      by_cases hc2 : t.ignoredMapFailures < cfg.ignoreMapFailuresBudget
      · rw [if_pos hc2]
        exact ⟨hc1, hc2⟩
      · rw [if_neg hc2] at hch
        exact absurd rfl hch
    · rw [if_neg hc1] at hch
      exact absurd rfl hch

theorem finishMapFailed_budget_exhausted (cfg : Cfg) (t : Tracker)
    (pool : List IdItem) (curNo : Nat) (node : String)
    (hr : cfg.mapRetry ≤ countAt (finishMapFailed cfg t pool curNo node).1.failedCount curNo)
    (hb : cfg.ignoreMapFailuresBudget ≤ t.ignoredMapFailures) :
    (finishMapFailed cfg t pool curNo node).1.jobState = JobState.failed ∧
    (finishMapFailed cfg t pool curNo node).1.ignoreFailureMappers
      = t.ignoreFailureMappers ∧
    (finishMapFailed cfg t pool curNo node).2 = true := by
  unfold finishMapFailed at hr ⊢
  dsimp only at hr ⊢
  by_cases hn : node ∈ nodesAt t.failedNodes curNo
  · rw [if_pos hn] at hr ⊢
    by_cases hc1 : cfg.mapRetry ≤ countAt t.failedCount curNo
    · rw [if_pos hc1, if_neg (not_lt.mpr hb)]
      exact ⟨rfl, rfl, rfl⟩
    · rw [if_neg hc1] at hr
      exact absurd hr hc1
  · rw [if_neg hn] at hr ⊢
    by_cases hc1 : cfg.mapRetry ≤ countAt (bumpAt t.failedCount curNo) curNo
    · rw [if_pos hc1, if_neg (not_lt.mpr hb)]
      exact ⟨rfl, rfl, rfl⟩
    · rw [if_neg hc1] at hr
      exact absurd hr hc1

/-- Tracker states reachable through the modelled operations: a started job,
a reloaded checkpoint, and any interleaving of assignments, finish reports
and Kill. -/
inductive Reach (cfg : Cfg) : Tracker → Prop where
  | start (env : StartEnv) (jobid : String) (reduceTotal : Nat) :
      Reach cfg (startTracker env cfg (initTracker jobid reduceTotal)).2
  | loaded (mT rT : Nat) (jobid : String) (st : JobState)
      (data : List AllocEntry) (res : List IdItem) (t' : Tracker)
      (h : loadTracker mT rT jobid st data res = some t') : Reach cfg t'
  | assignMapStep (t : Tracker) (e : String) (now : Int) (h : Reach cfg t) :
      Reach cfg (assignMap cfg t e now).2.2
  | assignReduceStep (t : Tracker) (e : String) (now : Int) (h : Reach cfg t) :
      Reach cfg (assignReduce cfg t e now).2.2
  | finishMapStep (t : Tracker) (env : FinishEnv) (no attempt : Nat)
      (st : TaskState) (rep : List (String × Int)) (h : Reach cfg t) :
      Reach cfg (finishMap cfg env t no attempt st rep).2
  | finishReduceStep (t : Tracker) (env : FinishEnv) (no attempt : Nat)
      (st : TaskState) (rep : List (String × Int)) (h : Reach cfg t) :
      Reach cfg (finishReduce cfg env t no attempt st rep).2
  | killStep (t : Tracker) (endState : JobState) (now : Int) (h : Reach cfg t) :
      Reach cfg (killTracker t endState now)

/-- C4 amended: in every reachable tracker state, `failedCount[no]` never
exceeds the number of distinct failing nodes recorded for `no`, and
`ignoreFailureMappers.size() ≤ ignoredMapFailures ≤ budget` (the claim's
equality fails when the synthetic-sort-file write fails for an
already-ignored task, see the counterexample); further, per Failed report: a
failure from an already-seen host leaves `failedCount` (and the node sets)
unchanged, a task id enters the ignore set only when its failure count has
reached the retry bound while the ignored count is still below the budget,
and at the retry bound with the budget exhausted the job is retracted as
Failed instead. -/
theorem c4_failure_bookkeeping (cfg : Cfg) (t : Tracker) (h : Reach cfg t) :
    (∀ no, countAt t.failedCount no ≤ (nodesAt t.failedNodes no).length) ∧
    t.ignoreFailureMappers.length ≤ t.ignoredMapFailures ∧
    t.ignoredMapFailures ≤ cfg.ignoreMapFailuresBudget ∧
    (∀ (pool : List IdItem) (curNo : Nat) (node : String),
      node ∈ nodesAt t.failedNodes curNo →
      (finishMapFailed cfg t pool curNo node).1.failedCount = t.failedCount ∧
      (finishMapFailed cfg t pool curNo node).1.failedNodes = t.failedNodes) ∧
    (∀ (pool : List IdItem) (curNo : Nat) (node : String),
      (finishMapFailed cfg t pool curNo node).1.ignoreFailureMappers
        ≠ t.ignoreFailureMappers →
      cfg.mapRetry ≤ countAt (finishMapFailed cfg t pool curNo node).1.failedCount curNo ∧
      t.ignoredMapFailures < cfg.ignoreMapFailuresBudget) ∧
    (∀ (pool : List IdItem) (curNo : Nat) (node : String),
      cfg.mapRetry ≤ countAt (finishMapFailed cfg t pool curNo node).1.failedCount curNo →
      cfg.ignoreMapFailuresBudget ≤ t.ignoredMapFailures →
      (finishMapFailed cfg t pool curNo node).1.jobState = JobState.failed ∧
      (finishMapFailed cfg t pool curNo node).2 = true) := by
  have hInv : InvC4 cfg t := by
    induction h with
    | start env jobid rT => exact invC4_start cfg env jobid rT
    | loaded mT rT jobid st data res t' hld =>
      exact invC4_load cfg mT rT jobid st data res t' hld
    | assignMapStep t e now h ih => exact invC4_assignMap cfg t e now ih
    | assignReduceStep t e now h ih => exact invC4_assignReduce cfg t e now ih
    | finishMapStep t env no attempt st rep h ih =>
      exact invC4_finishMap cfg env t no attempt st rep ih
    | finishReduceStep t env no attempt st rep h ih =>
      exact invC4_finishReduce cfg env t no attempt st rep ih
    | killStep t endState now h ih => exact invC4_kill cfg t endState now ih
  obtain ⟨h1, h2, h3⟩ := hInv
  refine ⟨h1, h2, h3, ?_, ?_, ?_⟩
  · intro pool curNo node hn
    exact finishMapFailed_node_seen cfg t pool curNo node hn
  · intro pool curNo node hch
    exact finishMapFailed_ignore_guard cfg t pool curNo node hch
  · intro pool curNo node hr hb
    obtain ⟨hj, _, hf⟩ := finishMapFailed_budget_exhausted cfg t pool curNo node hr hb
    exact ⟨hj, hf⟩

/-- C4 witness: the invariant at the concrete freshly started job. -/
theorem c4_failure_bookkeeping_witness :
    (startTracker ⟨false, 1, false⟩ cfgDefault (initTracker "job_c4w" 1)).2.ignoredMapFailures
      ≤ cfgDefault.ignoreMapFailuresBudget :=
  (c4_failure_bookkeeping cfgDefault _
    (Reach.start ⟨false, 1, false⟩ "job_c4w" 1)).2.2.1

/-- A one-map map-reduce job with `mapRetry = 1` and an ignore budget of 2,
driven through start, assign, a first Failed report (which consumes an
ignore slot), a re-assign and a second Failed report whose synthetic sort
file write fails. -/
def trackerC4 : Tracker :=
  let cfg : Cfg := { cfgDefault with mapRetry := 1, ignoreMapFailuresBudget := 2 }
  (finishMap cfg ⟨true, false, 9⟩
    ((assignMap cfg
      ((finishMap cfg ⟨false, false, 7⟩
        ((assignMap cfg
          ((startTracker ⟨false, 1, false⟩ cfg (initTracker "job_c4" 1)).2)
          "h1:80" 0).2.2)
        0 0 TaskState.failed []).2)
      "h1:80" 1).2.2)
    0 0 TaskState.failed []).2

/-- C4 counterexample: after the second Failed report slips past the
fake-completion (failed sort-file write) for the already-ignored task 0, the
insert is a set no-op but the counter still increments —
`ignoreFailureMappers.size()` is 1 while `ignoredMapFailures` is 2, refuting
the claim's equality (the budget bound itself still holds). -/
theorem c4_counterexample :
    trackerC4.ignoreFailureMappers.length ≠ trackerC4.ignoredMapFailures ∧
    trackerC4.ignoreFailureMappers.length = 1 ∧
    trackerC4.ignoredMapFailures = 2 := by
  refine ⟨by decide, by decide, by decide⟩

end Shuttle
